import Mathlib

/-!
Verification of the weather/travel tool logic of `lab12/travel_tools_server.py`.

The Python module is shallowly embedded:

* JSON values (as returned by `requests.Response.json()`) become the inductive
  type `JValue`.  Python `dict` objects become association lists with
  first-match lookup (JSON object keys are unique, so this is faithful).
  Python `None` is `JValue.jnull` — note that in Python the "absent" marker
  returned by `_safe_get` is the very same `None` object as a stored JSON
  null, and the embedding preserves that identification.
* Python numbers are split into `jint` (int) and `jfloat` (float; the `Rat`
  payload is the exact rational value of the finite IEEE double the JSON
  decoder produced — non-finite floats, which standard JSON cannot carry,
  and ints of magnitude at least 2^53, where `float()` rounds or overflows
  before any in-range use, are outside the modelled payload domain).
  Python `bool` is a subclass of `int`, so `isinstance(x, (int, float))`
  and `isinstance(x, int)` accept booleans; the predicates below mirror
  that.
* The Unicode behaviour of `str.strip()`, `str.lower()`, the digit classes
  of `_strptime`'s regexes and the printability test of `repr` are taken
  from generated tables of CPython 3.11's own Unicode data.  Two residual
  approximations, both documented at their definitions: `str.lower()`'s
  context-sensitive final-sigma rule uses the default sigma, and Lean
  strings cannot hold the lone surrogates Python strings may.
* `datetime.fromtimestamp` quantises a float timestamp to whole
  microseconds; the model quantises the exact rational value with the same
  round-half-even rule (`usOf`), which agrees with CPython's
  `modf`/`round` pipeline except where the intermediate `frac * 1e6`
  double multiplication is itself inexact (a sub-microsecond fringe).
  Noon distances are then exact integer microsecond counts; CPython
  compares them as `total_seconds()` floats, i.e. divided by the same
  constant 1e6 — identical comparisons for instants within float
  precision of the microsecond grid (all timestamps below year 2106).
  The uncaught `ValueError` of `timezone(timedelta(seconds=...))` for
  offsets of 24 hours or more, and the uncaught out-of-range errors of
  `fromtimestamp`/`astimezone`, are modelled by the `PyResult.raised`
  outcome, which escapes `get_weather_impl` entirely.
* The HTTP layer (`requests.get` inside `_owm_request`) is out of scope per
  the module's own structure; it is abstracted as an oracle
  `OwmTransport : endpoint → params → Except err data` whose success payload
  is a JSON object, matching `_owm_request`'s declared return type
  `tuple[dict[str, Any] | None, str | None]`.
* The ambient clock `datetime.now(timezone.utc).date()` becomes an explicit
  `today : CalDate` argument, and `os.environ` becomes an explicit `Env`.
* Outbound network calls are reified: each operation also returns the list of
  `NetCall`s it performed, so call-count claims are statable.
-/

/-- Embedded JSON value (the shape of `requests.Response.json()` data).
`jnull` doubles as Python `None`. -/
inductive JValue : Type where
  | jnull : JValue
  | jbool : Bool → JValue
  | jint : Int → JValue
  | jfloat : Rat → JValue
  | jstr : String → JValue
  | jarr : List JValue → JValue
  | jobj : List (String × JValue) → JValue

/-- A JSON object body: association list with unique keys. -/
abbrev Jobj : Type := List (String × JValue)

/-- Python `dict.get(key)` (returning `None` when absent is modelled by the
caller via `Option`): first-match association-list lookup. -/
def dictGet : Jobj → String → Option JValue
  | [], _ => none
  | (k, v) :: rest, key => if k = key then some v else dictGet rest key

/-- Embedding of `_safe_get` (travel_tools_server.py lines 43-49):
walk `path`; whenever the current value is not a dict or lacks the key,
return `None` (= `jnull`); otherwise descend.  Returning the stored value and
returning the absent marker coincide when the stored value is a JSON null,
exactly as in Python.  Total by construction — the Python loop can never
raise, matching the "never raises" contract. -/
def safe_get : JValue → List String → JValue
  | cur, [] => cur
  | JValue.jobj fields, key :: rest =>
      match dictGet fields key with
      | some v => safe_get v rest
      | none => JValue.jnull
  | _, _ :: _ => JValue.jnull

/-- Modelled from the spec's words (section 4.1), for comparison with
`safe_get`: the path lookup as a partial function, `some v` exactly when every
intermediate key exists and every intermediate value is a mapping. -/
def spec_path_get : JValue → List String → Option JValue
  | cur, [] => some cur
  | JValue.jobj fields, key :: rest =>
      match dictGet fields key with
      | some v => spec_path_get v rest
      | none => none
  | _, _ :: _ => none

/-! ## Unicode tables, generated from CPython 3.11 -/
/-- First code point of every run of ten Unicode decimal digits (category
`Nd`; the run assigns values 0-9 in order), generated from CPython 3.11's
`unicodedata`.  Python's regex `\d` (as used by `_strptime`) matches
exactly these characters, and `int()` maps each to its decimal value. -/
def ndDigitRunStarts : List Nat :=
  [
  48, 1632, 1776, 1984, 2406, 2534, 2662, 2790, 2918, 3046, 3174, 3302,
  3430, 3558, 3664, 3792, 3872, 4160, 4240, 6112, 6160, 6470, 6608, 6784,
  6800, 6992, 7088, 7232, 7248, 42528, 43216, 43264, 43472, 43504, 43600, 44016,
  65296, 66720, 68912, 69734, 69872, 69942, 70096, 70384, 70736, 70864, 71248, 71360,
  71472, 71904, 72016, 72784, 73040, 73120, 92768, 92864, 93008, 120782, 120792, 120802,
  120812, 120822, 123200, 123632, 125264, 130032
  ]

/-- The code points Python's `str.isspace` (hence `str.strip()`) treats as
whitespace, generated from CPython 3.11. -/
def pySpaceChars : List Nat :=
  [
  9, 10, 11, 12, 13, 28, 29, 30, 31, 32, 133, 160,
  5760, 8192, 8193, 8194, 8195, 8196, 8197, 8198, 8199, 8200, 8201, 8202,
  8232, 8233, 8239, 8287, 12288
  ]

set_option maxHeartbeats 3200000 in
/-- Unicode lowercase mappings of `str.lower()` for code points at or
above 0x80 that change under lowering (ASCII is handled separately),
generated from CPython 3.11.  Each entry maps a code point to the list of
code points of its lowercase form (`U+0130` maps to two).  The one
context-sensitive rule of `str.lower()` — Greek capital sigma lowering to
the final form `U+03C2` at word end — is approximated by the default
`U+03C3`. -/
def lowerTable : List (Nat × List Nat) :=
  [
  (192, [224]), (193, [225]), (194, [226]), (195, [227]),
  (196, [228]), (197, [229]), (198, [230]), (199, [231]),
  (200, [232]), (201, [233]), (202, [234]), (203, [235]),
  (204, [236]), (205, [237]), (206, [238]), (207, [239]),
  (208, [240]), (209, [241]), (210, [242]), (211, [243]),
  (212, [244]), (213, [245]), (214, [246]), (216, [248]),
  (217, [249]), (218, [250]), (219, [251]), (220, [252]),
  (221, [253]), (222, [254]), (256, [257]), (258, [259]),
  (260, [261]), (262, [263]), (264, [265]), (266, [267]),
  (268, [269]), (270, [271]), (272, [273]), (274, [275]),
  (276, [277]), (278, [279]), (280, [281]), (282, [283]),
  (284, [285]), (286, [287]), (288, [289]), (290, [291]),
  (292, [293]), (294, [295]), (296, [297]), (298, [299]),
  (300, [301]), (302, [303]), (304, [105, 775]), (306, [307]),
  (308, [309]), (310, [311]), (313, [314]), (315, [316]),
  (317, [318]), (319, [320]), (321, [322]), (323, [324]),
  (325, [326]), (327, [328]), (330, [331]), (332, [333]),
  (334, [335]), (336, [337]), (338, [339]), (340, [341]),
  (342, [343]), (344, [345]), (346, [347]), (348, [349]),
  (350, [351]), (352, [353]), (354, [355]), (356, [357]),
  (358, [359]), (360, [361]), (362, [363]), (364, [365]),
  (366, [367]), (368, [369]), (370, [371]), (372, [373]),
  (374, [375]), (376, [255]), (377, [378]), (379, [380]),
  (381, [382]), (385, [595]), (386, [387]), (388, [389]),
  (390, [596]), (391, [392]), (393, [598]), (394, [599]),
  (395, [396]), (398, [477]), (399, [601]), (400, [603]),
  (401, [402]), (403, [608]), (404, [611]), (406, [617]),
  (407, [616]), (408, [409]), (412, [623]), (413, [626]),
  (415, [629]), (416, [417]), (418, [419]), (420, [421]),
  (422, [640]), (423, [424]), (425, [643]), (428, [429]),
  (430, [648]), (431, [432]), (433, [650]), (434, [651]),
  (435, [436]), (437, [438]), (439, [658]), (440, [441]),
  (444, [445]), (452, [454]), (453, [454]), (455, [457]),
  (456, [457]), (458, [460]), (459, [460]), (461, [462]),
  (463, [464]), (465, [466]), (467, [468]), (469, [470]),
  (471, [472]), (473, [474]), (475, [476]), (478, [479]),
  (480, [481]), (482, [483]), (484, [485]), (486, [487]),
  (488, [489]), (490, [491]), (492, [493]), (494, [495]),
  (497, [499]), (498, [499]), (500, [501]), (502, [405]),
  (503, [447]), (504, [505]), (506, [507]), (508, [509]),
  (510, [511]), (512, [513]), (514, [515]), (516, [517]),
  (518, [519]), (520, [521]), (522, [523]), (524, [525]),
  (526, [527]), (528, [529]), (530, [531]), (532, [533]),
  (534, [535]), (536, [537]), (538, [539]), (540, [541]),
  (542, [543]), (544, [414]), (546, [547]), (548, [549]),
  (550, [551]), (552, [553]), (554, [555]), (556, [557]),
  (558, [559]), (560, [561]), (562, [563]), (570, [11365]),
  (571, [572]), (573, [410]), (574, [11366]), (577, [578]),
  (579, [384]), (580, [649]), (581, [652]), (582, [583]),
  (584, [585]), (586, [587]), (588, [589]), (590, [591]),
  (880, [881]), (882, [883]), (886, [887]), (895, [1011]),
  (902, [940]), (904, [941]), (905, [942]), (906, [943]),
  (908, [972]), (910, [973]), (911, [974]), (913, [945]),
  (914, [946]), (915, [947]), (916, [948]), (917, [949]),
  (918, [950]), (919, [951]), (920, [952]), (921, [953]),
  (922, [954]), (923, [955]), (924, [956]), (925, [957]),
  (926, [958]), (927, [959]), (928, [960]), (929, [961]),
  (931, [963]), (932, [964]), (933, [965]), (934, [966]),
  (935, [967]), (936, [968]), (937, [969]), (938, [970]),
  (939, [971]), (975, [983]), (984, [985]), (986, [987]),
  (988, [989]), (990, [991]), (992, [993]), (994, [995]),
  (996, [997]), (998, [999]), (1000, [1001]), (1002, [1003]),
  (1004, [1005]), (1006, [1007]), (1012, [952]), (1015, [1016]),
  (1017, [1010]), (1018, [1019]), (1021, [891]), (1022, [892]),
  (1023, [893]), (1024, [1104]), (1025, [1105]), (1026, [1106]),
  (1027, [1107]), (1028, [1108]), (1029, [1109]), (1030, [1110]),
  (1031, [1111]), (1032, [1112]), (1033, [1113]), (1034, [1114]),
  (1035, [1115]), (1036, [1116]), (1037, [1117]), (1038, [1118]),
  (1039, [1119]), (1040, [1072]), (1041, [1073]), (1042, [1074]),
  (1043, [1075]), (1044, [1076]), (1045, [1077]), (1046, [1078]),
  (1047, [1079]), (1048, [1080]), (1049, [1081]), (1050, [1082]),
  (1051, [1083]), (1052, [1084]), (1053, [1085]), (1054, [1086]),
  (1055, [1087]), (1056, [1088]), (1057, [1089]), (1058, [1090]),
  (1059, [1091]), (1060, [1092]), (1061, [1093]), (1062, [1094]),
  (1063, [1095]), (1064, [1096]), (1065, [1097]), (1066, [1098]),
  (1067, [1099]), (1068, [1100]), (1069, [1101]), (1070, [1102]),
  (1071, [1103]), (1120, [1121]), (1122, [1123]), (1124, [1125]),
  (1126, [1127]), (1128, [1129]), (1130, [1131]), (1132, [1133]),
  (1134, [1135]), (1136, [1137]), (1138, [1139]), (1140, [1141]),
  (1142, [1143]), (1144, [1145]), (1146, [1147]), (1148, [1149]),
  (1150, [1151]), (1152, [1153]), (1162, [1163]), (1164, [1165]),
  (1166, [1167]), (1168, [1169]), (1170, [1171]), (1172, [1173]),
  (1174, [1175]), (1176, [1177]), (1178, [1179]), (1180, [1181]),
  (1182, [1183]), (1184, [1185]), (1186, [1187]), (1188, [1189]),
  (1190, [1191]), (1192, [1193]), (1194, [1195]), (1196, [1197]),
  (1198, [1199]), (1200, [1201]), (1202, [1203]), (1204, [1205]),
  (1206, [1207]), (1208, [1209]), (1210, [1211]), (1212, [1213]),
  (1214, [1215]), (1216, [1231]), (1217, [1218]), (1219, [1220]),
  (1221, [1222]), (1223, [1224]), (1225, [1226]), (1227, [1228]),
  (1229, [1230]), (1232, [1233]), (1234, [1235]), (1236, [1237]),
  (1238, [1239]), (1240, [1241]), (1242, [1243]), (1244, [1245]),
  (1246, [1247]), (1248, [1249]), (1250, [1251]), (1252, [1253]),
  (1254, [1255]), (1256, [1257]), (1258, [1259]), (1260, [1261]),
  (1262, [1263]), (1264, [1265]), (1266, [1267]), (1268, [1269]),
  (1270, [1271]), (1272, [1273]), (1274, [1275]), (1276, [1277]),
  (1278, [1279]), (1280, [1281]), (1282, [1283]), (1284, [1285]),
  (1286, [1287]), (1288, [1289]), (1290, [1291]), (1292, [1293]),
  (1294, [1295]), (1296, [1297]), (1298, [1299]), (1300, [1301]),
  (1302, [1303]), (1304, [1305]), (1306, [1307]), (1308, [1309]),
  (1310, [1311]), (1312, [1313]), (1314, [1315]), (1316, [1317]),
  (1318, [1319]), (1320, [1321]), (1322, [1323]), (1324, [1325]),
  (1326, [1327]), (1329, [1377]), (1330, [1378]), (1331, [1379]),
  (1332, [1380]), (1333, [1381]), (1334, [1382]), (1335, [1383]),
  (1336, [1384]), (1337, [1385]), (1338, [1386]), (1339, [1387]),
  (1340, [1388]), (1341, [1389]), (1342, [1390]), (1343, [1391]),
  (1344, [1392]), (1345, [1393]), (1346, [1394]), (1347, [1395]),
  (1348, [1396]), (1349, [1397]), (1350, [1398]), (1351, [1399]),
  (1352, [1400]), (1353, [1401]), (1354, [1402]), (1355, [1403]),
  (1356, [1404]), (1357, [1405]), (1358, [1406]), (1359, [1407]),
  (1360, [1408]), (1361, [1409]), (1362, [1410]), (1363, [1411]),
  (1364, [1412]), (1365, [1413]), (1366, [1414]), (4256, [11520]),
  (4257, [11521]), (4258, [11522]), (4259, [11523]), (4260, [11524]),
  (4261, [11525]), (4262, [11526]), (4263, [11527]), (4264, [11528]),
  (4265, [11529]), (4266, [11530]), (4267, [11531]), (4268, [11532]),
  (4269, [11533]), (4270, [11534]), (4271, [11535]), (4272, [11536]),
  (4273, [11537]), (4274, [11538]), (4275, [11539]), (4276, [11540]),
  (4277, [11541]), (4278, [11542]), (4279, [11543]), (4280, [11544]),
  (4281, [11545]), (4282, [11546]), (4283, [11547]), (4284, [11548]),
  (4285, [11549]), (4286, [11550]), (4287, [11551]), (4288, [11552]),
  (4289, [11553]), (4290, [11554]), (4291, [11555]), (4292, [11556]),
  (4293, [11557]), (4295, [11559]), (4301, [11565]), (5024, [43888]),
  (5025, [43889]), (5026, [43890]), (5027, [43891]), (5028, [43892]),
  (5029, [43893]), (5030, [43894]), (5031, [43895]), (5032, [43896]),
  (5033, [43897]), (5034, [43898]), (5035, [43899]), (5036, [43900]),
  (5037, [43901]), (5038, [43902]), (5039, [43903]), (5040, [43904]),
  (5041, [43905]), (5042, [43906]), (5043, [43907]), (5044, [43908]),
  (5045, [43909]), (5046, [43910]), (5047, [43911]), (5048, [43912]),
  (5049, [43913]), (5050, [43914]), (5051, [43915]), (5052, [43916]),
  (5053, [43917]), (5054, [43918]), (5055, [43919]), (5056, [43920]),
  (5057, [43921]), (5058, [43922]), (5059, [43923]), (5060, [43924]),
  (5061, [43925]), (5062, [43926]), (5063, [43927]), (5064, [43928]),
  (5065, [43929]), (5066, [43930]), (5067, [43931]), (5068, [43932]),
  (5069, [43933]), (5070, [43934]), (5071, [43935]), (5072, [43936]),
  (5073, [43937]), (5074, [43938]), (5075, [43939]), (5076, [43940]),
  (5077, [43941]), (5078, [43942]), (5079, [43943]), (5080, [43944]),
  (5081, [43945]), (5082, [43946]), (5083, [43947]), (5084, [43948]),
  (5085, [43949]), (5086, [43950]), (5087, [43951]), (5088, [43952]),
  (5089, [43953]), (5090, [43954]), (5091, [43955]), (5092, [43956]),
  (5093, [43957]), (5094, [43958]), (5095, [43959]), (5096, [43960]),
  (5097, [43961]), (5098, [43962]), (5099, [43963]), (5100, [43964]),
  (5101, [43965]), (5102, [43966]), (5103, [43967]), (5104, [5112]),
  (5105, [5113]), (5106, [5114]), (5107, [5115]), (5108, [5116]),
  (5109, [5117]), (7312, [4304]), (7313, [4305]), (7314, [4306]),
  (7315, [4307]), (7316, [4308]), (7317, [4309]), (7318, [4310]),
  (7319, [4311]), (7320, [4312]), (7321, [4313]), (7322, [4314]),
  (7323, [4315]), (7324, [4316]), (7325, [4317]), (7326, [4318]),
  (7327, [4319]), (7328, [4320]), (7329, [4321]), (7330, [4322]),
  (7331, [4323]), (7332, [4324]), (7333, [4325]), (7334, [4326]),
  (7335, [4327]), (7336, [4328]), (7337, [4329]), (7338, [4330]),
  (7339, [4331]), (7340, [4332]), (7341, [4333]), (7342, [4334]),
  (7343, [4335]), (7344, [4336]), (7345, [4337]), (7346, [4338]),
  (7347, [4339]), (7348, [4340]), (7349, [4341]), (7350, [4342]),
  (7351, [4343]), (7352, [4344]), (7353, [4345]), (7354, [4346]),
  (7357, [4349]), (7358, [4350]), (7359, [4351]), (7680, [7681]),
  (7682, [7683]), (7684, [7685]), (7686, [7687]), (7688, [7689]),
  (7690, [7691]), (7692, [7693]), (7694, [7695]), (7696, [7697]),
  (7698, [7699]), (7700, [7701]), (7702, [7703]), (7704, [7705]),
  (7706, [7707]), (7708, [7709]), (7710, [7711]), (7712, [7713]),
  (7714, [7715]), (7716, [7717]), (7718, [7719]), (7720, [7721]),
  (7722, [7723]), (7724, [7725]), (7726, [7727]), (7728, [7729]),
  (7730, [7731]), (7732, [7733]), (7734, [7735]), (7736, [7737]),
  (7738, [7739]), (7740, [7741]), (7742, [7743]), (7744, [7745]),
  (7746, [7747]), (7748, [7749]), (7750, [7751]), (7752, [7753]),
  (7754, [7755]), (7756, [7757]), (7758, [7759]), (7760, [7761]),
  (7762, [7763]), (7764, [7765]), (7766, [7767]), (7768, [7769]),
  (7770, [7771]), (7772, [7773]), (7774, [7775]), (7776, [7777]),
  (7778, [7779]), (7780, [7781]), (7782, [7783]), (7784, [7785]),
  (7786, [7787]), (7788, [7789]), (7790, [7791]), (7792, [7793]),
  (7794, [7795]), (7796, [7797]), (7798, [7799]), (7800, [7801]),
  (7802, [7803]), (7804, [7805]), (7806, [7807]), (7808, [7809]),
  (7810, [7811]), (7812, [7813]), (7814, [7815]), (7816, [7817]),
  (7818, [7819]), (7820, [7821]), (7822, [7823]), (7824, [7825]),
  (7826, [7827]), (7828, [7829]), (7838, [223]), (7840, [7841]),
  (7842, [7843]), (7844, [7845]), (7846, [7847]), (7848, [7849]),
  (7850, [7851]), (7852, [7853]), (7854, [7855]), (7856, [7857]),
  (7858, [7859]), (7860, [7861]), (7862, [7863]), (7864, [7865]),
  (7866, [7867]), (7868, [7869]), (7870, [7871]), (7872, [7873]),
  (7874, [7875]), (7876, [7877]), (7878, [7879]), (7880, [7881]),
  (7882, [7883]), (7884, [7885]), (7886, [7887]), (7888, [7889]),
  (7890, [7891]), (7892, [7893]), (7894, [7895]), (7896, [7897]),
  (7898, [7899]), (7900, [7901]), (7902, [7903]), (7904, [7905]),
  (7906, [7907]), (7908, [7909]), (7910, [7911]), (7912, [7913]),
  (7914, [7915]), (7916, [7917]), (7918, [7919]), (7920, [7921]),
  (7922, [7923]), (7924, [7925]), (7926, [7927]), (7928, [7929]),
  (7930, [7931]), (7932, [7933]), (7934, [7935]), (7944, [7936]),
  (7945, [7937]), (7946, [7938]), (7947, [7939]), (7948, [7940]),
  (7949, [7941]), (7950, [7942]), (7951, [7943]), (7960, [7952]),
  (7961, [7953]), (7962, [7954]), (7963, [7955]), (7964, [7956]),
  (7965, [7957]), (7976, [7968]), (7977, [7969]), (7978, [7970]),
  (7979, [7971]), (7980, [7972]), (7981, [7973]), (7982, [7974]),
  (7983, [7975]), (7992, [7984]), (7993, [7985]), (7994, [7986]),
  (7995, [7987]), (7996, [7988]), (7997, [7989]), (7998, [7990]),
  (7999, [7991]), (8008, [8000]), (8009, [8001]), (8010, [8002]),
  (8011, [8003]), (8012, [8004]), (8013, [8005]), (8025, [8017]),
  (8027, [8019]), (8029, [8021]), (8031, [8023]), (8040, [8032]),
  (8041, [8033]), (8042, [8034]), (8043, [8035]), (8044, [8036]),
  (8045, [8037]), (8046, [8038]), (8047, [8039]), (8072, [8064]),
  (8073, [8065]), (8074, [8066]), (8075, [8067]), (8076, [8068]),
  (8077, [8069]), (8078, [8070]), (8079, [8071]), (8088, [8080]),
  (8089, [8081]), (8090, [8082]), (8091, [8083]), (8092, [8084]),
  (8093, [8085]), (8094, [8086]), (8095, [8087]), (8104, [8096]),
  (8105, [8097]), (8106, [8098]), (8107, [8099]), (8108, [8100]),
  (8109, [8101]), (8110, [8102]), (8111, [8103]), (8120, [8112]),
  (8121, [8113]), (8122, [8048]), (8123, [8049]), (8124, [8115]),
  (8136, [8050]), (8137, [8051]), (8138, [8052]), (8139, [8053]),
  (8140, [8131]), (8152, [8144]), (8153, [8145]), (8154, [8054]),
  (8155, [8055]), (8168, [8160]), (8169, [8161]), (8170, [8058]),
  (8171, [8059]), (8172, [8165]), (8184, [8056]), (8185, [8057]),
  (8186, [8060]), (8187, [8061]), (8188, [8179]), (8486, [969]),
  (8490, [107]), (8491, [229]), (8498, [8526]), (8544, [8560]),
  (8545, [8561]), (8546, [8562]), (8547, [8563]), (8548, [8564]),
  (8549, [8565]), (8550, [8566]), (8551, [8567]), (8552, [8568]),
  (8553, [8569]), (8554, [8570]), (8555, [8571]), (8556, [8572]),
  (8557, [8573]), (8558, [8574]), (8559, [8575]), (8579, [8580]),
  (9398, [9424]), (9399, [9425]), (9400, [9426]), (9401, [9427]),
  (9402, [9428]), (9403, [9429]), (9404, [9430]), (9405, [9431]),
  (9406, [9432]), (9407, [9433]), (9408, [9434]), (9409, [9435]),
  (9410, [9436]), (9411, [9437]), (9412, [9438]), (9413, [9439]),
  (9414, [9440]), (9415, [9441]), (9416, [9442]), (9417, [9443]),
  (9418, [9444]), (9419, [9445]), (9420, [9446]), (9421, [9447]),
  (9422, [9448]), (9423, [9449]), (11264, [11312]), (11265, [11313]),
  (11266, [11314]), (11267, [11315]), (11268, [11316]), (11269, [11317]),
  (11270, [11318]), (11271, [11319]), (11272, [11320]), (11273, [11321]),
  (11274, [11322]), (11275, [11323]), (11276, [11324]), (11277, [11325]),
  (11278, [11326]), (11279, [11327]), (11280, [11328]), (11281, [11329]),
  (11282, [11330]), (11283, [11331]), (11284, [11332]), (11285, [11333]),
  (11286, [11334]), (11287, [11335]), (11288, [11336]), (11289, [11337]),
  (11290, [11338]), (11291, [11339]), (11292, [11340]), (11293, [11341]),
  (11294, [11342]), (11295, [11343]), (11296, [11344]), (11297, [11345]),
  (11298, [11346]), (11299, [11347]), (11300, [11348]), (11301, [11349]),
  (11302, [11350]), (11303, [11351]), (11304, [11352]), (11305, [11353]),
  (11306, [11354]), (11307, [11355]), (11308, [11356]), (11309, [11357]),
  (11310, [11358]), (11311, [11359]), (11360, [11361]), (11362, [619]),
  (11363, [7549]), (11364, [637]), (11367, [11368]), (11369, [11370]),
  (11371, [11372]), (11373, [593]), (11374, [625]), (11375, [592]),
  (11376, [594]), (11378, [11379]), (11381, [11382]), (11390, [575]),
  (11391, [576]), (11392, [11393]), (11394, [11395]), (11396, [11397]),
  (11398, [11399]), (11400, [11401]), (11402, [11403]), (11404, [11405]),
  (11406, [11407]), (11408, [11409]), (11410, [11411]), (11412, [11413]),
  (11414, [11415]), (11416, [11417]), (11418, [11419]), (11420, [11421]),
  (11422, [11423]), (11424, [11425]), (11426, [11427]), (11428, [11429]),
  (11430, [11431]), (11432, [11433]), (11434, [11435]), (11436, [11437]),
  (11438, [11439]), (11440, [11441]), (11442, [11443]), (11444, [11445]),
  (11446, [11447]), (11448, [11449]), (11450, [11451]), (11452, [11453]),
  (11454, [11455]), (11456, [11457]), (11458, [11459]), (11460, [11461]),
  (11462, [11463]), (11464, [11465]), (11466, [11467]), (11468, [11469]),
  (11470, [11471]), (11472, [11473]), (11474, [11475]), (11476, [11477]),
  (11478, [11479]), (11480, [11481]), (11482, [11483]), (11484, [11485]),
  (11486, [11487]), (11488, [11489]), (11490, [11491]), (11499, [11500]),
  (11501, [11502]), (11506, [11507]), (42560, [42561]), (42562, [42563]),
  (42564, [42565]), (42566, [42567]), (42568, [42569]), (42570, [42571]),
  (42572, [42573]), (42574, [42575]), (42576, [42577]), (42578, [42579]),
  (42580, [42581]), (42582, [42583]), (42584, [42585]), (42586, [42587]),
  (42588, [42589]), (42590, [42591]), (42592, [42593]), (42594, [42595]),
  (42596, [42597]), (42598, [42599]), (42600, [42601]), (42602, [42603]),
  (42604, [42605]), (42624, [42625]), (42626, [42627]), (42628, [42629]),
  (42630, [42631]), (42632, [42633]), (42634, [42635]), (42636, [42637]),
  (42638, [42639]), (42640, [42641]), (42642, [42643]), (42644, [42645]),
  (42646, [42647]), (42648, [42649]), (42650, [42651]), (42786, [42787]),
  (42788, [42789]), (42790, [42791]), (42792, [42793]), (42794, [42795]),
  (42796, [42797]), (42798, [42799]), (42802, [42803]), (42804, [42805]),
  (42806, [42807]), (42808, [42809]), (42810, [42811]), (42812, [42813]),
  (42814, [42815]), (42816, [42817]), (42818, [42819]), (42820, [42821]),
  (42822, [42823]), (42824, [42825]), (42826, [42827]), (42828, [42829]),
  (42830, [42831]), (42832, [42833]), (42834, [42835]), (42836, [42837]),
  (42838, [42839]), (42840, [42841]), (42842, [42843]), (42844, [42845]),
  (42846, [42847]), (42848, [42849]), (42850, [42851]), (42852, [42853]),
  (42854, [42855]), (42856, [42857]), (42858, [42859]), (42860, [42861]),
  (42862, [42863]), (42873, [42874]), (42875, [42876]), (42877, [7545]),
  (42878, [42879]), (42880, [42881]), (42882, [42883]), (42884, [42885]),
  (42886, [42887]), (42891, [42892]), (42893, [613]), (42896, [42897]),
  (42898, [42899]), (42902, [42903]), (42904, [42905]), (42906, [42907]),
  (42908, [42909]), (42910, [42911]), (42912, [42913]), (42914, [42915]),
  (42916, [42917]), (42918, [42919]), (42920, [42921]), (42922, [614]),
  (42923, [604]), (42924, [609]), (42925, [620]), (42926, [618]),
  (42928, [670]), (42929, [647]), (42930, [669]), (42931, [43859]),
  (42932, [42933]), (42934, [42935]), (42936, [42937]), (42938, [42939]),
  (42940, [42941]), (42942, [42943]), (42944, [42945]), (42946, [42947]),
  (42948, [42900]), (42949, [642]), (42950, [7566]), (42951, [42952]),
  (42953, [42954]), (42960, [42961]), (42966, [42967]), (42968, [42969]),
  (42997, [42998]), (65313, [65345]), (65314, [65346]), (65315, [65347]),
  (65316, [65348]), (65317, [65349]), (65318, [65350]), (65319, [65351]),
  (65320, [65352]), (65321, [65353]), (65322, [65354]), (65323, [65355]),
  (65324, [65356]), (65325, [65357]), (65326, [65358]), (65327, [65359]),
  (65328, [65360]), (65329, [65361]), (65330, [65362]), (65331, [65363]),
  (65332, [65364]), (65333, [65365]), (65334, [65366]), (65335, [65367]),
  (65336, [65368]), (65337, [65369]), (65338, [65370]), (66560, [66600]),
  (66561, [66601]), (66562, [66602]), (66563, [66603]), (66564, [66604]),
  (66565, [66605]), (66566, [66606]), (66567, [66607]), (66568, [66608]),
  (66569, [66609]), (66570, [66610]), (66571, [66611]), (66572, [66612]),
  (66573, [66613]), (66574, [66614]), (66575, [66615]), (66576, [66616]),
  (66577, [66617]), (66578, [66618]), (66579, [66619]), (66580, [66620]),
  (66581, [66621]), (66582, [66622]), (66583, [66623]), (66584, [66624]),
  (66585, [66625]), (66586, [66626]), (66587, [66627]), (66588, [66628]),
  (66589, [66629]), (66590, [66630]), (66591, [66631]), (66592, [66632]),
  (66593, [66633]), (66594, [66634]), (66595, [66635]), (66596, [66636]),
  (66597, [66637]), (66598, [66638]), (66599, [66639]), (66736, [66776]),
  (66737, [66777]), (66738, [66778]), (66739, [66779]), (66740, [66780]),
  (66741, [66781]), (66742, [66782]), (66743, [66783]), (66744, [66784]),
  (66745, [66785]), (66746, [66786]), (66747, [66787]), (66748, [66788]),
  (66749, [66789]), (66750, [66790]), (66751, [66791]), (66752, [66792]),
  (66753, [66793]), (66754, [66794]), (66755, [66795]), (66756, [66796]),
  (66757, [66797]), (66758, [66798]), (66759, [66799]), (66760, [66800]),
  (66761, [66801]), (66762, [66802]), (66763, [66803]), (66764, [66804]),
  (66765, [66805]), (66766, [66806]), (66767, [66807]), (66768, [66808]),
  (66769, [66809]), (66770, [66810]), (66771, [66811]), (66928, [66967]),
  (66929, [66968]), (66930, [66969]), (66931, [66970]), (66932, [66971]),
  (66933, [66972]), (66934, [66973]), (66935, [66974]), (66936, [66975]),
  (66937, [66976]), (66938, [66977]), (66940, [66979]), (66941, [66980]),
  (66942, [66981]), (66943, [66982]), (66944, [66983]), (66945, [66984]),
  (66946, [66985]), (66947, [66986]), (66948, [66987]), (66949, [66988]),
  (66950, [66989]), (66951, [66990]), (66952, [66991]), (66953, [66992]),
  (66954, [66993]), (66956, [66995]), (66957, [66996]), (66958, [66997]),
  (66959, [66998]), (66960, [66999]), (66961, [67000]), (66962, [67001]),
  (66964, [67003]), (66965, [67004]), (68736, [68800]), (68737, [68801]),
  (68738, [68802]), (68739, [68803]), (68740, [68804]), (68741, [68805]),
  (68742, [68806]), (68743, [68807]), (68744, [68808]), (68745, [68809]),
  (68746, [68810]), (68747, [68811]), (68748, [68812]), (68749, [68813]),
  (68750, [68814]), (68751, [68815]), (68752, [68816]), (68753, [68817]),
  (68754, [68818]), (68755, [68819]), (68756, [68820]), (68757, [68821]),
  (68758, [68822]), (68759, [68823]), (68760, [68824]), (68761, [68825]),
  (68762, [68826]), (68763, [68827]), (68764, [68828]), (68765, [68829]),
  (68766, [68830]), (68767, [68831]), (68768, [68832]), (68769, [68833]),
  (68770, [68834]), (68771, [68835]), (68772, [68836]), (68773, [68837]),
  (68774, [68838]), (68775, [68839]), (68776, [68840]), (68777, [68841]),
  (68778, [68842]), (68779, [68843]), (68780, [68844]), (68781, [68845]),
  (68782, [68846]), (68783, [68847]), (68784, [68848]), (68785, [68849]),
  (68786, [68850]), (71840, [71872]), (71841, [71873]), (71842, [71874]),
  (71843, [71875]), (71844, [71876]), (71845, [71877]), (71846, [71878]),
  (71847, [71879]), (71848, [71880]), (71849, [71881]), (71850, [71882]),
  (71851, [71883]), (71852, [71884]), (71853, [71885]), (71854, [71886]),
  (71855, [71887]), (71856, [71888]), (71857, [71889]), (71858, [71890]),
  (71859, [71891]), (71860, [71892]), (71861, [71893]), (71862, [71894]),
  (71863, [71895]), (71864, [71896]), (71865, [71897]), (71866, [71898]),
  (71867, [71899]), (71868, [71900]), (71869, [71901]), (71870, [71902]),
  (71871, [71903]), (93760, [93792]), (93761, [93793]), (93762, [93794]),
  (93763, [93795]), (93764, [93796]), (93765, [93797]), (93766, [93798]),
  (93767, [93799]), (93768, [93800]), (93769, [93801]), (93770, [93802]),
  (93771, [93803]), (93772, [93804]), (93773, [93805]), (93774, [93806]),
  (93775, [93807]), (93776, [93808]), (93777, [93809]), (93778, [93810]),
  (93779, [93811]), (93780, [93812]), (93781, [93813]), (93782, [93814]),
  (93783, [93815]), (93784, [93816]), (93785, [93817]), (93786, [93818]),
  (93787, [93819]), (93788, [93820]), (93789, [93821]), (93790, [93822]),
  (93791, [93823]), (125184, [125218]), (125185, [125219]), (125186, [125220]),
  (125187, [125221]), (125188, [125222]), (125189, [125223]), (125190, [125224]),
  (125191, [125225]), (125192, [125226]), (125193, [125227]), (125194, [125228]),
  (125195, [125229]), (125196, [125230]), (125197, [125231]), (125198, [125232]),
  (125199, [125233]), (125200, [125234]), (125201, [125235]), (125202, [125236]),
  (125203, [125237]), (125204, [125238]), (125205, [125239]), (125206, [125240]),
  (125207, [125241]), (125208, [125242]), (125209, [125243]), (125210, [125244]),
  (125211, [125245]), (125212, [125246]), (125213, [125247]), (125214, [125248]),
  (125215, [125249]), (125216, [125250]), (125217, [125251])
  ]

/-- Inclusive ranges of code points at or above 0x7f that CPython's
`str.isprintable` rejects (so `repr` hex-escapes them), generated from
CPython 3.11.  The surrogate gap, unrepresentable in Lean `Char`, is
absorbed into its surrounding range. -/
def nonPrintableRanges : List (Nat × Nat) :=
  [
  (127, 160), (173, 173), (888, 889), (896, 899), (907, 907), (909, 909),
  (930, 930), (1328, 1328), (1367, 1368), (1419, 1420), (1424, 1424), (1480, 1487),
  (1515, 1518), (1525, 1541), (1564, 1564), (1757, 1757), (1806, 1807), (1867, 1868),
  (1970, 1983), (2043, 2044), (2094, 2095), (2111, 2111), (2140, 2141), (2143, 2143),
  (2155, 2159), (2191, 2199), (2274, 2274), (2436, 2436), (2445, 2446), (2449, 2450),
  (2473, 2473), (2481, 2481), (2483, 2485), (2490, 2491), (2501, 2502), (2505, 2506),
  (2511, 2518), (2520, 2523), (2526, 2526), (2532, 2533), (2559, 2560), (2564, 2564),
  (2571, 2574), (2577, 2578), (2601, 2601), (2609, 2609), (2612, 2612), (2615, 2615),
  (2618, 2619), (2621, 2621), (2627, 2630), (2633, 2634), (2638, 2640), (2642, 2648),
  (2653, 2653), (2655, 2661), (2679, 2688), (2692, 2692), (2702, 2702), (2706, 2706),
  (2729, 2729), (2737, 2737), (2740, 2740), (2746, 2747), (2758, 2758), (2762, 2762),
  (2766, 2767), (2769, 2783), (2788, 2789), (2802, 2808), (2816, 2816), (2820, 2820),
  (2829, 2830), (2833, 2834), (2857, 2857), (2865, 2865), (2868, 2868), (2874, 2875),
  (2885, 2886), (2889, 2890), (2894, 2900), (2904, 2907), (2910, 2910), (2916, 2917),
  (2936, 2945), (2948, 2948), (2955, 2957), (2961, 2961), (2966, 2968), (2971, 2971),
  (2973, 2973), (2976, 2978), (2981, 2983), (2987, 2989), (3002, 3005), (3011, 3013),
  (3017, 3017), (3022, 3023), (3025, 3030), (3032, 3045), (3067, 3071), (3085, 3085),
  (3089, 3089), (3113, 3113), (3130, 3131), (3141, 3141), (3145, 3145), (3150, 3156),
  (3159, 3159), (3163, 3164), (3166, 3167), (3172, 3173), (3184, 3190), (3213, 3213),
  (3217, 3217), (3241, 3241), (3252, 3252), (3258, 3259), (3269, 3269), (3273, 3273),
  (3278, 3284), (3287, 3292), (3295, 3295), (3300, 3301), (3312, 3312), (3315, 3327),
  (3341, 3341), (3345, 3345), (3397, 3397), (3401, 3401), (3408, 3411), (3428, 3429),
  (3456, 3456), (3460, 3460), (3479, 3481), (3506, 3506), (3516, 3516), (3518, 3519),
  (3527, 3529), (3531, 3534), (3541, 3541), (3543, 3543), (3552, 3557), (3568, 3569),
  (3573, 3584), (3643, 3646), (3676, 3712), (3715, 3715), (3717, 3717), (3723, 3723),
  (3748, 3748), (3750, 3750), (3774, 3775), (3781, 3781), (3783, 3783), (3790, 3791),
  (3802, 3803), (3808, 3839), (3912, 3912), (3949, 3952), (3992, 3992), (4029, 4029),
  (4045, 4045), (4059, 4095), (4294, 4294), (4296, 4300), (4302, 4303), (4681, 4681),
  (4686, 4687), (4695, 4695), (4697, 4697), (4702, 4703), (4745, 4745), (4750, 4751),
  (4785, 4785), (4790, 4791), (4799, 4799), (4801, 4801), (4806, 4807), (4823, 4823),
  (4881, 4881), (4886, 4887), (4955, 4956), (4989, 4991), (5018, 5023), (5110, 5111),
  (5118, 5119), (5760, 5760), (5789, 5791), (5881, 5887), (5910, 5918), (5943, 5951),
  (5972, 5983), (5997, 5997), (6001, 6001), (6004, 6015), (6110, 6111), (6122, 6127),
  (6138, 6143), (6158, 6158), (6170, 6175), (6265, 6271), (6315, 6319), (6390, 6399),
  (6431, 6431), (6444, 6447), (6460, 6463), (6465, 6467), (6510, 6511), (6517, 6527),
  (6572, 6575), (6602, 6607), (6619, 6621), (6684, 6685), (6751, 6751), (6781, 6782),
  (6794, 6799), (6810, 6815), (6830, 6831), (6863, 6911), (6989, 6991), (7039, 7039),
  (7156, 7163), (7224, 7226), (7242, 7244), (7305, 7311), (7355, 7356), (7368, 7375),
  (7419, 7423), (7958, 7959), (7966, 7967), (8006, 8007), (8014, 8015), (8024, 8024),
  (8026, 8026), (8028, 8028), (8030, 8030), (8062, 8063), (8117, 8117), (8133, 8133),
  (8148, 8149), (8156, 8156), (8176, 8177), (8181, 8181), (8191, 8207), (8232, 8239),
  (8287, 8303), (8306, 8307), (8335, 8335), (8349, 8351), (8385, 8399), (8433, 8447),
  (8588, 8591), (9255, 9279), (9291, 9311), (11124, 11125), (11158, 11158), (11508, 11512),
  (11558, 11558), (11560, 11564), (11566, 11567), (11624, 11630), (11633, 11646), (11671, 11679),
  (11687, 11687), (11695, 11695), (11703, 11703), (11711, 11711), (11719, 11719), (11727, 11727),
  (11735, 11735), (11743, 11743), (11870, 11903), (11930, 11930), (12020, 12031), (12246, 12271),
  (12284, 12288), (12352, 12352), (12439, 12440), (12544, 12548), (12592, 12592), (12687, 12687),
  (12772, 12783), (12831, 12831), (42125, 42127), (42183, 42191), (42540, 42559), (42744, 42751),
  (42955, 42959), (42962, 42962), (42964, 42964), (42970, 42993), (43053, 43055), (43066, 43071),
  (43128, 43135), (43206, 43213), (43226, 43231), (43348, 43358), (43389, 43391), (43470, 43470),
  (43482, 43485), (43519, 43519), (43575, 43583), (43598, 43599), (43610, 43611), (43715, 43738),
  (43767, 43776), (43783, 43784), (43791, 43792), (43799, 43807), (43815, 43815), (43823, 43823),
  (43884, 43887), (44014, 44015), (44026, 44031), (55204, 55215), (55239, 55242), (55292, 63743),
  (64110, 64111), (64218, 64255), (64263, 64274), (64280, 64284), (64311, 64311), (64317, 64317),
  (64319, 64319), (64322, 64322), (64325, 64325), (64451, 64466), (64912, 64913), (64968, 64974),
  (64976, 65007), (65050, 65055), (65107, 65107), (65127, 65127), (65132, 65135), (65141, 65141),
  (65277, 65280), (65471, 65473), (65480, 65481), (65488, 65489), (65496, 65497), (65501, 65503),
  (65511, 65511), (65519, 65531), (65534, 65535), (65548, 65548), (65575, 65575), (65595, 65595),
  (65598, 65598), (65614, 65615), (65630, 65663), (65787, 65791), (65795, 65798), (65844, 65846),
  (65935, 65935), (65949, 65951), (65953, 65999), (66046, 66175), (66205, 66207), (66257, 66271),
  (66300, 66303), (66340, 66348), (66379, 66383), (66427, 66431), (66462, 66462), (66500, 66503),
  (66518, 66559), (66718, 66719), (66730, 66735), (66772, 66775), (66812, 66815), (66856, 66863),
  (66916, 66926), (66939, 66939), (66955, 66955), (66963, 66963), (66966, 66966), (66978, 66978),
  (66994, 66994), (67002, 67002), (67005, 67071), (67383, 67391), (67414, 67423), (67432, 67455),
  (67462, 67462), (67505, 67505), (67515, 67583), (67590, 67591), (67593, 67593), (67638, 67638),
  (67641, 67643), (67645, 67646), (67670, 67670), (67743, 67750), (67760, 67807), (67827, 67827),
  (67830, 67834), (67868, 67870), (67898, 67902), (67904, 67967), (68024, 68027), (68048, 68049),
  (68100, 68100), (68103, 68107), (68116, 68116), (68120, 68120), (68150, 68151), (68155, 68158),
  (68169, 68175), (68185, 68191), (68256, 68287), (68327, 68330), (68343, 68351), (68406, 68408),
  (68438, 68439), (68467, 68471), (68498, 68504), (68509, 68520), (68528, 68607), (68681, 68735),
  (68787, 68799), (68851, 68857), (68904, 68911), (68922, 69215), (69247, 69247), (69290, 69290),
  (69294, 69295), (69298, 69375), (69416, 69423), (69466, 69487), (69514, 69551), (69580, 69599),
  (69623, 69631), (69710, 69713), (69750, 69758), (69821, 69821), (69827, 69839), (69865, 69871),
  (69882, 69887), (69941, 69941), (69960, 69967), (70007, 70015), (70112, 70112), (70133, 70143),
  (70162, 70162), (70207, 70271), (70279, 70279), (70281, 70281), (70286, 70286), (70302, 70302),
  (70314, 70319), (70379, 70383), (70394, 70399), (70404, 70404), (70413, 70414), (70417, 70418),
  (70441, 70441), (70449, 70449), (70452, 70452), (70458, 70458), (70469, 70470), (70473, 70474),
  (70478, 70479), (70481, 70486), (70488, 70492), (70500, 70501), (70509, 70511), (70517, 70655),
  (70748, 70748), (70754, 70783), (70856, 70863), (70874, 71039), (71094, 71095), (71134, 71167),
  (71237, 71247), (71258, 71263), (71277, 71295), (71354, 71359), (71370, 71423), (71451, 71452),
  (71468, 71471), (71495, 71679), (71740, 71839), (71923, 71934), (71943, 71944), (71946, 71947),
  (71956, 71956), (71959, 71959), (71990, 71990), (71993, 71994), (72007, 72015), (72026, 72095),
  (72104, 72105), (72152, 72153), (72165, 72191), (72264, 72271), (72355, 72367), (72441, 72703),
  (72713, 72713), (72759, 72759), (72774, 72783), (72813, 72815), (72848, 72849), (72872, 72872),
  (72887, 72959), (72967, 72967), (72970, 72970), (73015, 73017), (73019, 73019), (73022, 73022),
  (73032, 73039), (73050, 73055), (73062, 73062), (73065, 73065), (73103, 73103), (73106, 73106),
  (73113, 73119), (73130, 73439), (73465, 73647), (73649, 73663), (73714, 73726), (74650, 74751),
  (74863, 74863), (74869, 74879), (75076, 77711), (77811, 77823), (78895, 82943), (83527, 92159),
  (92729, 92735), (92767, 92767), (92778, 92781), (92863, 92863), (92874, 92879), (92910, 92911),
  (92918, 92927), (92998, 93007), (93018, 93018), (93026, 93026), (93048, 93052), (93072, 93759),
  (93851, 93951), (94027, 94030), (94088, 94094), (94112, 94175), (94181, 94191), (94194, 94207),
  (100344, 100351), (101590, 101631), (101641, 110575), (110580, 110580), (110588, 110588), (110591, 110591),
  (110883, 110927), (110931, 110947), (110952, 110959), (111356, 113663), (113771, 113775), (113789, 113791),
  (113801, 113807), (113818, 113819), (113824, 118527), (118574, 118575), (118599, 118607), (118724, 118783),
  (119030, 119039), (119079, 119080), (119155, 119162), (119275, 119295), (119366, 119519), (119540, 119551),
  (119639, 119647), (119673, 119807), (119893, 119893), (119965, 119965), (119968, 119969), (119971, 119972),
  (119975, 119976), (119981, 119981), (119994, 119994), (119996, 119996), (120004, 120004), (120070, 120070),
  (120075, 120076), (120085, 120085), (120093, 120093), (120122, 120122), (120127, 120127), (120133, 120133),
  (120135, 120137), (120145, 120145), (120486, 120487), (120780, 120781), (121484, 121498), (121504, 121504),
  (121520, 122623), (122655, 122879), (122887, 122887), (122905, 122906), (122914, 122914), (122917, 122917),
  (122923, 123135), (123181, 123183), (123198, 123199), (123210, 123213), (123216, 123535), (123567, 123583),
  (123642, 123646), (123648, 124895), (124903, 124903), (124908, 124908), (124911, 124911), (124927, 124927),
  (125125, 125126), (125143, 125183), (125260, 125263), (125274, 125277), (125280, 126064), (126133, 126208),
  (126270, 126463), (126468, 126468), (126496, 126496), (126499, 126499), (126501, 126502), (126504, 126504),
  (126515, 126515), (126520, 126520), (126522, 126522), (126524, 126529), (126531, 126534), (126536, 126536),
  (126538, 126538), (126540, 126540), (126544, 126544), (126547, 126547), (126549, 126550), (126552, 126552),
  (126554, 126554), (126556, 126556), (126558, 126558), (126560, 126560), (126563, 126563), (126565, 126566),
  (126571, 126571), (126579, 126579), (126584, 126584), (126589, 126589), (126591, 126591), (126602, 126602),
  (126620, 126624), (126628, 126628), (126634, 126634), (126652, 126703), (126706, 126975), (127020, 127023),
  (127124, 127135), (127151, 127152), (127168, 127168), (127184, 127184), (127222, 127231), (127406, 127461),
  (127491, 127503), (127548, 127551), (127561, 127567), (127570, 127583), (127590, 127743), (128728, 128732),
  (128749, 128751), (128765, 128767), (128884, 128895), (128985, 128991), (129004, 129007), (129009, 129023),
  (129036, 129039), (129096, 129103), (129114, 129119), (129160, 129167), (129198, 129199), (129202, 129279),
  (129620, 129631), (129646, 129647), (129653, 129655), (129661, 129663), (129671, 129679), (129709, 129711),
  (129723, 129727), (129734, 129743), (129754, 129759), (129768, 129775), (129783, 129791), (129939, 129939),
  (129995, 130031), (130042, 131071), (173792, 173823), (177977, 177983), (178206, 178207), (183970, 183983),
  (191457, 194559), (195102, 196607), (201547, 917759), (918000, 1114111)
  ]

/-! ## Python string primitives used by the module -/

/-- Python's `str.isspace` test, as used by `str.strip()`: ASCII fast path,
then the generated table. -/
def isPySpace (c : Char) : Bool :=
  if c.toNat < 128 then
    (9 ≤ c.toNat && c.toNat ≤ 13) || (28 ≤ c.toNat && c.toNat ≤ 31) || c.toNat = 32
  else pySpaceChars.contains c.toNat

/-- Python `str.strip()` on the character list. -/
def stripChars (cs : List Char) : List Char :=
  ((cs.dropWhile isPySpace).reverse.dropWhile isPySpace).reverse

/-- Python `str.strip()`. -/
def pyStrip (s : String) : String := String.mk (stripChars s.data)

/-- Decimal value of a Unicode decimal digit (regex `\d` of `_strptime`
composed with `int()`), `none` for every other character: ASCII fast path,
then the generated `Nd` runs. -/
def pyDigitVal (c : Char) : Option Nat :=
  if 48 ≤ c.toNat ∧ c.toNat ≤ 57 then some (c.toNat - 48)
  else if c.toNat < 1632 then none
  else
    match ndDigitRunStarts.find? (fun s => s ≤ c.toNat && c.toNat ≤ s + 9) with
    | some s => some (c.toNat - s)
    | none => none

/-- Python `str.lower()` of one character: ASCII fast path, then the
generated Unicode case map (one character can lower to two). -/
def pyLowerChar (c : Char) : List Char :=
  if c.toNat < 128 then
    [if 65 ≤ c.toNat ∧ c.toNat ≤ 90 then Char.ofNat (c.toNat + 32) else c]
  else
    match lowerTable.lookup c.toNat with
    | some cs => cs.map Char.ofNat
    | none => [c]

/-- Python `str.lower()`. -/
def pyLower (s : String) : String := String.mk ((s.data.map pyLowerChar).flatten)

/-- The apostrophe character (Python's default repr quote). -/
def squote : Char := Char.ofNat 39

/-- The double-quote character. -/
def dquote : Char := Char.ofNat 34

/-- Quote character chosen by CPython `repr` for a string: a double quote
when the string contains an apostrophe but no double quote, else an
apostrophe. -/
def pyReprQuote (s : String) : Char :=
  if s.data.contains squote && !(s.data.contains dquote) then dquote else squote

/-- Lower-case hex digit. -/
def hexDigit (n : Nat) : Char :=
  if n < 10 then Char.ofNat (48 + n) else Char.ofNat (87 + n)

/-- `w` lower-case hex digits of `n`, most significant first. -/
def hexDigits (n w : Nat) : List Char :=
  (List.range w).reverse.map fun i => hexDigit (n / 16 ^ i % 16)

/-- CPython's `str.isprintable` on one character (`repr` hex-escapes
exactly the non-printable ones): ASCII fast path, then the generated
ranges. -/
def pyIsPrintable (c : Char) : Bool :=
  if c.toNat < 127 then 32 ≤ c.toNat
  else !(nonPrintableRanges.any fun r => r.1 ≤ c.toNat && c.toNat ≤ r.2)

/-- How CPython `repr` renders one character of a string quoted with `q`:
backslash and quote are backslash-escaped; tab, newline and carriage
return get their short escapes; every other non-printable character is
hex-escaped (`\xNN` below 0x100, `\uNNNN` below 0x10000, `\UNNNNNNNN`
above); printable characters pass through. -/
def pyReprChar (q : Char) (c : Char) : List Char :=
  if c = '\\' then ['\\', '\\']
  else if c = q then ['\\', q]
  else if c = '\n' then ['\\', 'n']
  else if c = '\r' then ['\\', 'r']
  else if c = '\t' then ['\\', 't']
  else if pyIsPrintable c then [c]
  else if c.toNat < 256 then '\\' :: 'x' :: hexDigits c.toNat 2
  else if c.toNat < 65536 then '\\' :: 'u' :: hexDigits c.toNat 4
  else '\\' :: 'U' :: hexDigits c.toNat 8

/-- CPython `repr` of a string, as used by the `{...!r}` f-string
conversions in the module's messages. -/
def pyRepr (s : String) : String :=
  let q := pyReprQuote s
  String.mk (q :: (s.data.map (pyReprChar q)).flatten ++ [q])

/-! ## Calendar dates (`datetime.date`) -/

/-- A Python `datetime.date` value (year/month/day). -/
structure CalDate : Type where
  year : Int
  month : Nat
  day : Nat
deriving DecidableEq

/-- Gregorian leap year. -/
def isLeap (y : Nat) : Bool := y % 4 = 0 && (y % 100 ≠ 0 || y % 400 = 0)

/-- Length of month `m` in year `y`. -/
def daysInMonth (y m : Nat) : Nat :=
  if m = 2 then (if isLeap y then 29 else 28)
  else if m = 4 || m = 6 || m = 9 || m = 11 then 30
  else 31

/-- Validity per `datetime.date` (MINYEAR 1, MAXYEAR 9999). -/
def validDate (y m d : Nat) : Bool :=
  1 ≤ y && y ≤ 9999 && 1 ≤ m && m ≤ 12 && 1 ≤ d && d ≤ daysInMonth y m

/-- Days since the Unix epoch 1970-01-01 of a civil date (the standard
`days_from_civil` algorithm; agrees with Python `date.toordinal` up to the
constant epoch shift, and Python's `date` total order is exactly
ordinal order). -/
def days_from_civil (dt : CalDate) : Int :=
  let y : Int := if dt.month ≤ 2 then dt.year - 1 else dt.year
  let era : Int := y.fdiv 400
  let yoe : Nat := (y - era * 400).toNat
  let mp : Nat := if 2 < dt.month then dt.month - 3 else dt.month + 9
  let doy : Nat := (153 * mp + 2) / 5 + dt.day - 1
  let doe : Nat := yoe * 365 + yoe / 4 - yoe / 100 + doy
  era * 146097 + (doe : Int) - 719468

/-- Civil date of a days-since-epoch count (the standard `civil_from_days`
algorithm, inverse of `days_from_civil`). -/
def civil_from_days (z0 : Int) : CalDate :=
  let z : Int := z0 + 719468
  let era : Int := z.fdiv 146097
  let doe : Nat := (z - era * 146097).toNat
  let yoe : Nat := (doe - doe / 1460 + doe / 36524 - doe / 146096) / 365
  let doy : Nat := doe - (365 * yoe + yoe / 4 - yoe / 100)
  let mp : Nat := (5 * doy + 2) / 153
  let d : Nat := doy - (153 * mp + 2) / 5 + 1
  let m : Nat := if mp < 10 then mp + 3 else mp - 9
  ⟨(yoe : Int) + era * 400 + (if m ≤ 2 then 1 else 0), m, d⟩

/-- Python `date.isoformat()` digit padding. -/
def padNat (n w : Nat) : String :=
  let s := toString n
  String.mk (List.replicate (w - s.length) '0') ++ s

/-- Python `date.isoformat()` (`YYYY-MM-DD`; parsed dates have year in
1..9999). -/
def isoformat (dt : CalDate) : String :=
  padNat dt.year.toNat 4 ++ "-" ++ padNat dt.month 2 ++ "-" ++ padNat dt.day 2

/-! ## `_parse_yyyy_mm_dd` -/

/-- Split a character list on the dash character.  The compiled `_strptime`
pattern for `%Y-%m-%d` is `(Y)(-)(m)(-)(d)` with a full-consumption check,
and none of the three field classes can match a dash, so the regex accepts
exactly the strings of shape `field-field-field` with each field accepted
by its class. -/
def splitDash : List Char → List (List Char)
  | [] => [[]]
  | c :: rest =>
      if c = '-' then [] :: splitDash rest
      else
        match splitDash rest with
        | g :: gs => (c :: g) :: gs
        | [] => [[c]]

/-- `%Y` of `_strptime`: regex `\d\d\d\d` — exactly four decimal digits
(Unicode digits included), valued by `int()`. -/
def yearField : List Char → Option Nat
  | [a, b, c, d] =>
    match pyDigitVal a, pyDigitVal b, pyDigitVal c, pyDigitVal d with
    | some va, some vb, some vc, some vd =>
        some (va * 1000 + vb * 100 + vc * 10 + vd)
    | _, _, _, _ => none
  | _ => none

/-- `%m` of `_strptime`: regex `1[0-2]|0[1-9]|[1-9]` — one or two ASCII
digits forming 1..12 (this class is ASCII-only). -/
def monthField : List Char → Option Nat
  | [a] => if 49 ≤ a.toNat ∧ a.toNat ≤ 57 then some (a.toNat - 48) else none
  | [a, b] =>
      if 48 ≤ a.toNat ∧ a.toNat ≤ 57 ∧ 48 ≤ b.toNat ∧ b.toNat ≤ 57 then
        (let v := (a.toNat - 48) * 10 + (b.toNat - 48)
         if 1 ≤ v ∧ v ≤ 12 then some v else none)
      else none
  | _ => none

/-- `%d` of `_strptime`: regex `3[01]|[12]\d|0[1-9]|[1-9]| [1-9]` — `30`
or `31`; an ASCII `1` or `2` followed by any Unicode digit; ASCII `0` then
ASCII `1`-`9`; a single ASCII `1`-`9`; or an ASCII space then ASCII
`1`-`9` (the space-padded day). -/
def dayField : List Char → Option Nat
  | [a] => if 49 ≤ a.toNat ∧ a.toNat ≤ 57 then some (a.toNat - 48) else none
  | [a, b] =>
      if a = '3' ∧ (b = '0' ∨ b = '1') then some (30 + (b.toNat - 48))
      else if a = '1' ∨ a = '2' then
        (match pyDigitVal b with
         | some vb => some ((a.toNat - 48) * 10 + vb)
         | none => none)
      else if a = '0' ∧ 49 ≤ b.toNat ∧ b.toNat ≤ 57 then some (b.toNat - 48)
      else if a = ' ' ∧ 49 ≤ b.toNat ∧ b.toNat ≤ 57 then some (b.toNat - 48)
      else none
  | _ => none

/-- Embedding of `_parse_yyyy_mm_dd` (lines 31-35):
`datetime.strptime(value.strip(), "%Y-%m-%d").date()` with any exception
mapped to `None`: the three regex field classes above, then `datetime`'s
own calendar validation. -/
def parse_yyyy_mm_dd (value : String) : Option CalDate :=
  match splitDash (stripChars value.data) with
  | [ys, ms, ds] =>
    match yearField ys, monthField ms, dayField ds with
    | some y, some m, some d =>
        if validDate y m d then some ⟨(y : Int), m, d⟩ else none
    | _, _, _ => none
  | _ => none

/-! ## `_fmt_temp_c` -/

/-- Round-half-to-even on rationals (the rounding used by CPython's fixed
format `f"{x:.1f}"` on the exact value of the float, and by `round` inside
`fromtimestamp`'s microsecond quantisation). -/
def roundHalfEven (q : Rat) : Int :=
  let f : Int := q.floor
  let r : Rat := q - (f : Rat)
  if r < 1/2 then f
  else if 1/2 < r then f + 1
  else if f % 2 = 0 then f else f + 1

/-- `roundHalfEven (t * s)` computed on `num`/`den` directly (the `Rat`
field operations are `@[irreducible]`): for `t = num/den`, the fractional
remainder of `s·t` against its floor `f` is `(s·num - f·den)/den`, and
comparing it with `1/2` is comparing `2·(s·num - f·den)` with `den`.
Proved equal to the textbook definition in `rheScaled_eq` below. -/
def rheScaled (s : Nat) (t : Rat) : Int :=
  let a : Int := (s : Int) * t.num
  let b : Int := (t.den : Int)
  let f : Int := a.fdiv b
  let r2 : Int := 2 * (a - f * b)
  if r2 < b then f
  else if b < r2 then f + 1
  else if f % 2 = 0 then f else f + 1

/-- Round-half-even of `10 * t` (the `.1f` rounding). -/
def rheTenths (t : Rat) : Int := rheScaled 10 t

/-- Embedding of `_fmt_temp_c` (lines 38-40): `f"{temp_c:.1f}°C"`.  The
sign is the sign of the value itself — CPython prints `-0.0` for a
negative temperature that rounds to zero.  (IEEE `-0.0` exactly, which has
no distinct rational value, is outside the modelled domain.) -/
def fmt_temp_c (temp_c : Rat) : String :=
  let n : Int := rheTenths temp_c
  (if temp_c < 0 then "-" else "") ++ toString (n.natAbs / 10) ++ "." ++
    toString (n.natAbs % 10) ++ "°C"

/-! ## Weather extraction (`_weather_from_current` / `_weather_from_forecast`) -/

/-- Python `isinstance(x, (int, float))` on a JSON value (`bool` is a
subclass of `int` in Python, so booleans pass). -/
def pyIsNumber : JValue → Bool
  | JValue.jint _ => true
  | JValue.jfloat _ => true
  | JValue.jbool _ => true
  | _ => false

/-- Python `float(x)` on a value accepted by `pyIsNumber` (exact on the
modelled domain, see the header). -/
def pyToRat : JValue → Rat
  | JValue.jint n => (n : Rat)
  | JValue.jfloat q => q
  | JValue.jbool b => if b then 1 else 0
  | _ => 0

/-- The `(temperature, description, error)` triple both weather helpers
return (`tuple[float | None, str | None, str | None]`). -/
abbrev WTriple : Type := Option Rat × Option String × Option String

/-- Outcome of a Python computation that may raise an exception the module
does not catch (it then escapes `get_weather_impl` entirely; the tool
framework surfaces it as a protocol-level error, not as a result
string). -/
inductive PyResult (α : Type) : Type where
  | raised : PyResult α
  | ok : α → PyResult α
deriving DecidableEq

/-- The description candidate both helpers compute (lines 76-82 and
135-141): `data.get("weather", [])`, then — inside a `try` that converts any
failure to `None` — take element 0, require it to be a dict, and `.get` its
`"description"`.  Every non-list, empty-list or non-dict-first-element shape
ends as `None`, either by the explicit guards or by the swallowed
`TypeError`/`KeyError`/`IndexError`. -/
def descCandidate (fields : Jobj) : Option JValue :=
  match dictGet fields "weather" with
  | some (JValue.jarr (JValue.jobj wf :: _)) => dictGet wf "description"
  | _ => none

/-- The description candidate of a best entry: `descCandidate` when the
entry is a dict (as every reachable `best` is), else `None`. -/
def desc_of : JValue → Option JValue
  | JValue.jobj fields => descCandidate fields
  | _ => none

/-- The description defaulting (lines 86-87 / 145-146): keep the candidate
only when it is a string whose `strip()` is non-empty, else
`"Unknown conditions"`. -/
def resolve_desc : Option JValue → String
  | some (JValue.jstr s) => if pyStrip s = "" then "Unknown conditions" else s
  | _ => "Unknown conditions"

/-- Shared tail of both weather helpers (lines 75-89 and 134-148): extract
`["main", "temp"]` via `_safe_get`, require it numeric (else the given
hard-failure message), and default a missing/non-string/blank description to
`"Unknown conditions"`.  `best` is the dict the fields are read from. -/
def extract_weather (missingTempMsg : String) (best : JValue) : WTriple :=
  let temp := safe_get best ["main", "temp"]
  if pyIsNumber temp then
    (some (pyToRat temp), some (resolve_desc (desc_of best)), none)
  else
    (none, none, some missingTempMsg)

/-- A recorded outbound HTTP request of `_owm_request`. -/
structure NetCall : Type where
  endpoint : String
  params : List (String × String)
deriving DecidableEq

/-- The network oracle standing for `requests.get` inside `_owm_request`:
either an error string (network failure or HTTP >= 400, already rendered by
`_owm_request`) or the parsed JSON object (`_owm_request`'s declared success
type is `dict[str, Any]`). -/
abbrev OwmTransport : Type := String → List (String × String) → Except String Jobj

/-- The query parameters both endpoints receive (lines 70 and 95). -/
def owmParams (city apiKey : String) : List (String × String) :=
  [("q", city), ("appid", apiKey), ("units", "metric")]

/-- Embedding of `_weather_from_current` (lines 67-89); this path performs
no datetime arithmetic and cannot raise, so its outcome is always `ok`. -/
def weather_from_current (tr : OwmTransport) (city apiKey : String) :
    PyResult WTriple × List NetCall :=
  let triple : WTriple :=
    match tr "weather" (owmParams city apiKey) with
    | Except.error e => (none, none, some e)
    | Except.ok data =>
        extract_weather "Unexpected OpenWeatherMap response: missing temperature"
          (JValue.jobj data)
  (PyResult.ok triple, [⟨"weather", owmParams city apiKey⟩])

/-- The feed's UTC offset (lines 100-102): `_safe_get(data, ["city",
"timezone"])`, kept only when `isinstance(..., int)` (booleans included),
else 0.  (Whether the offset is a *valid* timezone offset is checked by the
caller, where `timezone(timedelta(seconds=...))` is constructed.) -/
def tz_of (data : Jobj) : Int :=
  match safe_get (JValue.jobj data) ["city", "timezone"] with
  | JValue.jint n => n
  | JValue.jbool b => if b then 1 else 0
  | _ => 0

/-- The forecast entries (line 105): `data.get("list", [])`; the surrounding
isinstance-list check is applied by the caller. -/
def entries_of (data : Jobj) : JValue :=
  (dictGet data "list").getD (JValue.jarr [])

/-- `datetime.fromtimestamp`'s microsecond quantisation of a float
timestamp, on the exact rational value: whole microseconds, ties to even.
(CPython computes `round(modf(t)[0] * 1e6)` and renormalises; on exact
arithmetic that equals `roundHalfEven (t * 10^6)` because the integer part
contributes an even multiple of 10^6.  The only divergence is where the
`frac * 1e6` double multiplication is itself inexact — a sub-microsecond
fringe.) -/
def usOf (dt : Rat) : Int := rheScaled 1000000 dt

/-- First representable `datetime` instant (0001-01-01T00:00:00), in
microseconds since the epoch. -/
def usMinDatetime : Int := days_from_civil ⟨1, 1, 1⟩ * 86400 * 1000000

/-- Last representable `datetime` instant (9999-12-31T23:59:59.999999), in
microseconds since the epoch. -/
def usMaxDatetime : Int := days_from_civil ⟨10000, 1, 1⟩ * 86400 * 1000000 - 1

/-- Whether a quantised instant is representable as a `datetime` (outside
this range `fromtimestamp`/`astimezone` raise). -/
def usInRange (us : Int) : Bool :=
  decide (usMinDatetime ≤ us) && decide (us ≤ usMaxDatetime)

/-- Local calendar date of a quantised instant under a fixed UTC offset of
`tz` seconds (line 120's
`fromtimestamp(dt, tz=utc).astimezone(tz).date()`): the wall-clock
microsecond count `us + tz·10^6` falls on day `fdiv (·) 86400·10^6` since
the epoch. -/
def localDateOfUs (us : Int) (tz : Int) : CalDate :=
  civil_from_days ((us + tz * 1000000).fdiv 86400000000)

/-- Epoch microseconds of 12:00 local time on `target` under UTC offset
`tz` (line 110's `noon`). -/
def noonUs (tz : Int) (target : CalDate) : Int :=
  (days_from_civil target * 86400 + 43200 - tz) * 1000000

/-- One iteration of the selection loop (lines 114-123): `ok none` when the
item is skipped (not a dict, `dt` missing or non-numeric, or local date
differing from the target); `raised` when `fromtimestamp`/`astimezone`
raises because the quantised instant, or its local wall time, is outside
the `datetime` range; otherwise `ok (some d)` with `d` the absolute
distance from local noon in microseconds (line 123's
`abs((local_dt - noon).total_seconds())`, exact on the microsecond
grid). -/
def entryView (tz : Int) (target : CalDate) (item : JValue) : PyResult (Option Nat) :=
  match item with
  | JValue.jobj fields =>
    match dictGet fields "dt" with
    | some v =>
        if pyIsNumber v then
          let us : Int := usOf (pyToRat v)
          if usInRange us && usInRange (us + tz * 1000000) then
            (if localDateOfUs us tz = target then
              PyResult.ok (some (us - noonUs tz target).natAbs)
             else PyResult.ok none)
          else PyResult.raised
        else PyResult.ok none
    | none => PyResult.ok none
  | _ => PyResult.ok none

/-- The selection loop (lines 111-126): a left scan carrying
`(best, best_delta)`, replacing the candidate only on a strictly smaller
delta; an entry that raises aborts the whole call. -/
def scanBestE (tz : Int) (target : CalDate) :
    List JValue → Option (JValue × Nat) → PyResult (Option (JValue × Nat))
  | [], best => PyResult.ok best
  | item :: rest, best =>
    match entryView tz target item with
    | PyResult.raised => PyResult.raised
    | PyResult.ok none => scanBestE tz target rest best
    | PyResult.ok (some d) =>
      match best with
      | none => scanBestE tz target rest (some (item, d))
      | some b =>
          if d < b.2 then scanBestE tz target rest (some (item, d))
          else scanBestE tz target rest best

/-- The fallback branch (lines 128-132): when no entry matched the target
date, use `entries[0]` if it is a dict, else report the invalid-entry
failure; a dict fallback goes through the ordinary extraction. -/
def fallback_extract (e : JValue) : WTriple :=
  match e with
  | JValue.jobj _ =>
      extract_weather
        "Unexpected OpenWeatherMap response: missing forecast temperature" e
  | _ => (none, none, some "Unexpected OpenWeatherMap response: invalid forecast entry")

/-- Body of `_weather_from_forecast` after a successful request (lines
100-148), including the two uncaught crash paths: line 103's
`timezone(timedelta(seconds=...))` raises `ValueError` unless the offset is
strictly between -24 and +24 hours, and line 120's
`fromtimestamp`/`astimezone` raise for out-of-range timestamps (see
`entryView`). -/
def forecast_triple (data : Jobj) (target : CalDate) : PyResult WTriple :=
  let tz := tz_of data
  if -86400 < tz ∧ tz < 86400 then
    match entries_of data with
    | JValue.jarr (e0 :: es) =>
      (match scanBestE tz target (e0 :: es) none with
       | PyResult.raised => PyResult.raised
       | PyResult.ok (some b) =>
           PyResult.ok (extract_weather
             "Unexpected OpenWeatherMap response: missing forecast temperature" b.1)
       | PyResult.ok none => PyResult.ok (fallback_extract e0))
    | _ =>
      PyResult.ok
        (none, none, some "Unexpected OpenWeatherMap response: missing forecast list")
  else PyResult.raised

/-- Embedding of `_weather_from_forecast` (lines 92-148). -/
def weather_from_forecast (tr : OwmTransport) (city apiKey : String)
    (target : CalDate) : PyResult WTriple × List NetCall :=
  let outcome : PyResult WTriple :=
    match tr "forecast" (owmParams city apiKey) with
    | Except.error e => PyResult.ok (none, none, some e)
    | Except.ok data => forecast_triple data target
  (outcome, [⟨"forecast", owmParams city apiKey⟩])

/-! ## `get_weather_impl` -/

/-- The process environment: the raw value of `OPENWEATHER_API_KEY`
(`os.environ.get("OPENWEATHER_API_KEY", "")` — the empty string when the
variable is unset). -/
structure Env : Type where
  openweatherApiKey : String

/-- The fixed unavailable-credential message (lines 162-165), echoing the
inputs through `{...!r}`. -/
def unavailableMsg (city date : String) : String :=
  "Weather lookup unavailable: missing OPENWEATHER_API_KEY environment variable.\nInput: city="
    ++ pyRepr city ++ ", date=" ++ pyRepr date

/-- The fixed invalid-date message (line 169). -/
def invalidDateMsg : String := "Invalid date format. Please use YYYY-MM-DD."

/-- The window decision (line 172): `today <= target <= today +
timedelta(days=5)`.  Python `date` comparison and `timedelta` addition are
exactly day-number comparison and addition, so the check is phrased over
`days_from_civil`. -/
def in_forecast_window (today target : CalDate) : Bool :=
  decide (days_from_civil today ≤ days_from_civil target) &&
  decide (days_from_civil target ≤ days_from_civil today + 5)

/-- The final three returns of `get_weather_impl` (lines 181-186): failure
when the triple carries an error or a missing field, otherwise the
formatted success line. -/
def render_weather_result (city : String) (target : CalDate) (source : String) :
    WTriple → String
  | (_, _, some err) =>
      "Weather lookup failed for " ++ city ++ " on " ++ isoformat target
        ++ " (" ++ source ++ "): " ++ err
  | (some t, some c, none) =>
      "Weather for " ++ city ++ " on " ++ isoformat target ++ " ("
        ++ source ++ "): " ++ fmt_temp_c t ++ ", " ++ c ++ "."
  | (_, _, none) =>
      "Weather lookup failed for " ++ city ++ " on " ++ isoformat target
        ++ " (" ++ source ++ "): unexpected response"

/-- Embedding of `get_weather_impl` (lines 151-186), with the clock and the
environment explicit, the outbound calls reified in the second component,
and an uncaught forecast-path exception propagated as `raised`. -/
def get_weather_impl (env : Env) (tr : OwmTransport) (today : CalDate)
    (city date : String) : PyResult String × List NetCall :=
  let apiKey := pyStrip env.openweatherApiKey
  if apiKey = "" then (PyResult.ok (unavailableMsg city date), [])
  else
    match parse_yyyy_mm_dd date with
    | none => (PyResult.ok invalidDateMsg, [])
    | some target =>
      let pr :=
        if in_forecast_window today target then
          weather_from_forecast tr city apiKey target
        else
          weather_from_current tr city apiKey
      let source : String :=
        if in_forecast_window today target then "forecast" else "current"
      (match pr.1 with
       | PyResult.raised => PyResult.raised
       | PyResult.ok t => PyResult.ok (render_weather_result city target source t),
       pr.2)

/-! ## `search_travel_options_impl` -/

/-- A `_MockFlight` (lines 200-204). -/
structure MockFlight : Type where
  airline : String
  price : String
  notes : Option String

/-- A `_MockHotel` (lines 207-211). -/
structure MockHotel : Type where
  name : String
  rate_per_night : String
  neighborhood : Option String

/-- The Tokyo flights of `_MOCK_DATA`. -/
def tokyoFlights : List MockFlight :=
  [⟨"Japan Airlines (JAL)", "USD 1,120", some "Round-trip estimate"⟩,
   ⟨"All Nippon Airways (ANA)", "USD 1,080", some "Round-trip estimate"⟩,
   ⟨"Singapore Airlines", "USD 980", some "1 stop, round-trip estimate"⟩]

/-- The Tokyo hotels of `_MOCK_DATA`. -/
def tokyoHotels : List MockHotel :=
  [⟨"Shinjuku City Hotel", "USD 165/night", some "Shinjuku"⟩,
   ⟨"Asakusa Riverside Inn", "USD 120/night", some "Asakusa"⟩,
   ⟨"Ginza Central Stay", "USD 210/night", some "Ginza"⟩]

/-- The Udaipur flights of `_MOCK_DATA`. -/
def udaipurFlights : List MockFlight :=
  [⟨"IndiGo", "INR 9,800", some "Round-trip estimate"⟩,
   ⟨"Air India", "INR 11,200", some "Round-trip estimate"⟩,
   ⟨"Vistara", "INR 12,750", some "Round-trip estimate"⟩]

/-- The Udaipur hotels of `_MOCK_DATA`. -/
def udaipurHotels : List MockHotel :=
  [⟨"Lakeview Heritage Hotel", "INR 5,500/night", some "Lake Pichola"⟩,
   ⟨"Old City Haveli Stay", "INR 3,200/night", some "Old City"⟩,
   ⟨"Aravalli Resort & Spa", "INR 8,900/night", some "Outskirts"⟩]

/-- `_MOCK_DATA` (lines 214-239): destination key to (flights, hotels). -/
def mock_data : List (String × (List MockFlight × List MockHotel)) :=
  [("tokyo", (tokyoFlights, tokyoHotels)),
   ("udaipur", (udaipurFlights, udaipurHotels))]

/-- Association-list lookup in `mock_data`. -/
def mockLookup : List (String × (List MockFlight × List MockHotel)) → String →
    Option (List MockFlight × List MockHotel)
  | [], _ => none
  | (k, v) :: rest, key => if k = key then some v else mockLookup rest key

/-- `_MOCK_DATA.get(destination.strip().lower())` (lines 250-251); the
subsequent `if not data` truthiness test equals the `None` test because both
stored values are non-empty. -/
def catalog_lookup (destination : String) :
    Option (List MockFlight × List MockHotel) :=
  mockLookup mock_data (pyLower (pyStrip destination))

/-- The unsupported-destination message (lines 253-256), echoing all four
inputs through `{...!r}`.  (The apostrophes around the two supported
destination names are spelled via `squote`.) -/
def unsupportedMsg (origin destination depart_date return_date : String) : String :=
  "Mock search only supports destination " ++ String.mk [squote] ++ "Tokyo"
    ++ String.mk [squote] ++ " or " ++ String.mk [squote] ++ "Udaipur"
    ++ String.mk [squote] ++ " right now.\nInput: origin=" ++ pyRepr origin
    ++ ", destination=" ++ pyRepr destination ++ ", depart_date="
    ++ pyRepr depart_date ++ ", return_date=" ++ pyRepr return_date

/-- One rendered flight line (lines 267-269); `if f.notes` is Python
truthiness, so an empty note also renders nothing. -/
def flight_line (f : MockFlight) : String :=
  "- " ++ f.airline ++ ": " ++ f.price ++
    (match f.notes with
     | some n => if n = "" then "" else " (" ++ n ++ ")"
     | none => "")

/-- One rendered hotel line (lines 272-274). -/
def hotel_line (h : MockHotel) : String :=
  "- " ++ h.name ++ ": " ++ h.rate_per_night ++
    (match h.neighborhood with
     | some n => if n = "" then "" else " — " ++ n
     | none => "")

/-- Rendering of `search_travel_options_impl` (lines 252-276) as a function
of the inputs and the selected catalog entry: the unsupported message when
the lookup found nothing, else the multi-line report (note that the `Route:`
line echoes the literal `destination` argument, not the lower-cased key). -/
def render_travel (origin destination depart_date return_date : String) :
    Option (List MockFlight × List MockHotel) → String
  | none => unsupportedMsg origin destination depart_date return_date
  | some (flights, hotels) =>
      String.intercalate "\n"
        (["Travel options (MOCK DATA)",
          "Route: " ++ origin ++ " → " ++ destination,
          "Dates: " ++ depart_date ++ " to " ++ return_date,
          "",
          "Flights:"]
         ++ flights.map flight_line
         ++ ["", "Hotels:"]
         ++ hotels.map hotel_line)

/-- Embedding of `search_travel_options_impl` (lines 242-276): a pure
function of its four string arguments (the source reads only the immutable
module-level `_MOCK_DATA`). -/
def search_travel_options_impl (origin destination depart_date return_date : String) :
    String :=
  render_travel origin destination depart_date return_date
    (catalog_lookup destination)

/-! ## Spec-side predicates and loop views -/

/-- The result-pairing invariant of a weather triple: either a temperature
together with a non-empty condition string and no error, or no fields and an
error message. -/
def TripleOk (t : WTriple) : Prop :=
  (∃ q s, t = (some q, some s, none) ∧ ¬ s = "") ∨ ∃ m, t = (none, none, some m)

/-- One step of the selection loop on an already-admitted candidate
(`best`/`best_delta` fused): replace only on a strictly smaller delta
(line 124's `best_delta is None or delta < best_delta`). -/
def updBest {α : Type} : Option (α × Nat) → (α × Nat) → Option (α × Nat)
  | none, p => some p
  | some b, p => if p.2 < b.2 then some p else some b

/-- The admitted candidates of the selection loop, in list order: each
entry paired with its noon-distance in microseconds, entries the loop skips
omitted (entries that would raise contribute nothing here; theorems about
the selection assume no entry raises, since a raise aborts the call). -/
def candidates (tz : Int) (target : CalDate) (entries : List JValue) :
    List (JValue × Nat) :=
  entries.filterMap fun e =>
    match entryView tz target e with
    | PyResult.ok (some d) => some (e, d)
    | _ => none

/-! ## Concrete fixtures used by witnesses and counterexamples -/

/-- A transport whose request always fails (its response never matters for
the claims it is used in). -/
def offlineTr : OwmTransport := fun _ _ => Except.error "Request failed: offline"

/-- A deeply nested object fixture. -/
def nestedFixture : JValue :=
  JValue.jobj [("a", JValue.jobj [("b", JValue.jobj [("c", JValue.jstr "x")])])]

/-- A forecast payload whose only entry is not a dict (so nothing can match
any target date). -/
def noMatchData : Jobj := [("list", JValue.jarr [JValue.jint 7])]

/-- A forecast payload whose only entry is a dict with a non-numeric `dt`
(no date match possible) but a perfectly usable temperature. -/
def fallbackEntry : JValue :=
  JValue.jobj [("dt", JValue.jstr "x"),
               ("main", JValue.jobj [("temp", JValue.jint 20)])]

/-- Wrapper object for `fallbackEntry`. -/
def noMatchDictData : Jobj := [("list", JValue.jarr [fallbackEntry])]

/-- Forecast entry at 09:00 local on 1970-01-02 (UTC feed). -/
def entry0900 : JValue :=
  JValue.jobj [("dt", JValue.jint 118800),
    ("main", JValue.jobj [("temp", JValue.jfloat (9 : Rat))]),
    ("weather", JValue.jarr [JValue.jobj [("description", JValue.jstr "morning")]])]

/-- Forecast entry at 12:00 local on 1970-01-02 (UTC feed). -/
def entry1200 : JValue :=
  JValue.jobj [("dt", JValue.jint 129600),
    ("main", JValue.jobj [("temp", JValue.jfloat (12 : Rat))]),
    ("weather", JValue.jarr [JValue.jobj [("description", JValue.jstr "noon")]])]

/-- Forecast entry at 15:00 local on 1970-01-02 (UTC feed). -/
def entry1500 : JValue :=
  JValue.jobj [("dt", JValue.jint 140400),
    ("main", JValue.jobj [("temp", JValue.jfloat (15 : Rat))]),
    ("weather", JValue.jarr [JValue.jobj [("description", JValue.jstr "afternoon")]])]

/-- A well-formed forecast payload: UTC feed, three entries on 1970-01-02 at
09:00, 12:00 and 15:00 local time. -/
def goodForecastData : Jobj :=
  [("city", JValue.jobj [("timezone", JValue.jint 0)]),
   ("list", JValue.jarr [entry0900, entry1200, entry1500])]

/-- A transport that always answers with `goodForecastData`. -/
def goodTr : OwmTransport := fun _ _ => Except.ok goodForecastData

/-- A forecast entry whose timestamp (10^18 seconds) is far outside the
`datetime` range, so `fromtimestamp` raises on it. -/
def crashEntry : JValue :=
  JValue.jobj [("dt", JValue.jint 1000000000000000000)]

/-- A forecast payload containing a entry that matches 1970-01-02 at local
noon followed by `crashEntry`. -/
def crashForecastData : Jobj :=
  [("city", JValue.jobj [("timezone", JValue.jint 0)]),
   ("list", JValue.jarr [entry1200, crashEntry])]

/-! ## Theorems -/

/-- Claim C3: for every nested mapping and key sequence, `_safe_get` returns
the exact stored value when every intermediate key exists and every
intermediate value is a mapping, and returns the absent marker (`None`,
i.e. `jnull`) whenever any intermediate key is missing or any intermediate
value is not a mapping.  (`safe_get` is a total function, so it cannot raise
and has no side effects; `spec_path_get` is the spec-worded path lookup.) -/
theorem safe_get_matches_path_spec (d : JValue) (path : List String) :
    (∀ v, spec_path_get d path = some v → safe_get d path = v) ∧
    (spec_path_get d path = none → safe_get d path = JValue.jnull) := by
  induction path generalizing d with
  | nil => simp [spec_path_get, safe_get]
  | cons k rest ih =>
    cases d <;> simp only [spec_path_get, safe_get] <;> try simp
    case jobj fields =>
      cases h : dictGet fields k with
      | none => simp
      | some v => exact ih v

/-- Witness for C3 at a concrete nested mapping: the stored path is
returned exactly, via the theorem. -/
theorem safe_get_matches_path_spec_witness :
    spec_path_get nestedFixture ["a", "b", "c"] = some (JValue.jstr "x") ∧
    safe_get nestedFixture ["a", "b", "c"] = JValue.jstr "x" :=
  ⟨rfl, (safe_get_matches_path_spec nestedFixture ["a", "b", "c"]).1 _ rfl⟩

/-- Batteries `Rat.floor` is the `Int.floor` of the rational. -/
theorem rat_floor_eq_intFloor (q : Rat) : q.floor = ⌊q⌋ := rfl

/-- `rheScaled` computes the textbook round-half-even of `s * t`. -/
theorem rheScaled_eq (s : Nat) (t : Rat) :
    rheScaled s t = roundHalfEven (t * (s : Rat)) := by
  have hd : ((t.den : Nat) : Rat) ≠ 0 := by exact_mod_cast t.den_nz
  have hbQ : (0 : Rat) < ((t.den : Nat) : Rat) := by positivity
  have hq : t * (s : Rat) = (((s : Int) * t.num : Int) : Rat) / ((t.den : Nat) : Rat) := by
    rw [show (((s : Int) * t.num : Int) : Rat) / ((t.den : Nat) : Rat)
          = ((t.num : Rat) / (t.den : Rat)) * (s : Rat) from by push_cast; ring,
       Rat.num_div_den]
  have hfl : (t * (s : Rat)).floor = ((s : Int) * t.num).fdiv (t.den : Int) := by
    rw [rat_floor_eq_intFloor, hq, Rat.floor_intCast_div_natCast,
        Int.fdiv_eq_ediv _ (by positivity)]
  have hr : t * (s : Rat) - ((((s : Int) * t.num).fdiv (t.den : Int) : Int) : Rat)
      = (((s : Int) * t.num - ((s : Int) * t.num).fdiv (t.den : Int) * t.den : Int) : Rat)
          / ((t.den : Nat) : Rat) := by
    rw [hq]
    push_cast
    field_simp
    ring
  have c1 : (t * (s : Rat) - ((((s : Int) * t.num).fdiv (t.den : Int) : Int) : Rat) < 1/2)
      ↔ (2 * ((s : Int) * t.num - ((s : Int) * t.num).fdiv (t.den : Int) * t.den) < (t.den : Int)) := by
    rw [hr, div_lt_div_iff₀ hbQ (by norm_num : (0:Rat) < 2)]
    rw [show ((2 * ((s : Int) * t.num - ((s : Int) * t.num).fdiv (t.den : Int) * t.den) : Int) < (t.den : Int))
          ↔ (((2 * ((s : Int) * t.num - ((s : Int) * t.num).fdiv (t.den : Int) * t.den) : Int) : Rat)
              < (((t.den : Int) : Int) : Rat)) from by exact_mod_cast Iff.rfl]
    push_cast
    constructor <;> intro h <;> linarith
  have c2 : (1/2 < t * (s : Rat) - ((((s : Int) * t.num).fdiv (t.den : Int) : Int) : Rat))
      ↔ ((t.den : Int) < 2 * ((s : Int) * t.num - ((s : Int) * t.num).fdiv (t.den : Int) * t.den)) := by
    rw [hr, div_lt_div_iff₀ (by norm_num : (0:Rat) < 2) hbQ]
    rw [show ((t.den : Int) < (2 * ((s : Int) * t.num - ((s : Int) * t.num).fdiv (t.den : Int) * t.den) : Int))
          ↔ ((((t.den : Int) : Int) : Rat)
              < ((2 * ((s : Int) * t.num - ((s : Int) * t.num).fdiv (t.den : Int) * t.den) : Int) : Rat)) from by
        exact_mod_cast Iff.rfl]
    push_cast
    constructor <;> intro h <;> linarith
  simp only [rheScaled, roundHalfEven, hfl]
  by_cases h1 : 2 * ((s : Int) * t.num - ((s : Int) * t.num).fdiv (t.den : Int) * t.den) < (t.den : Int)
  · rw [if_pos h1, if_pos (c1.mpr h1)]
  · rw [if_neg h1, if_neg (fun hc => h1 (c1.mp hc))]
    by_cases h2 : (t.den : Int) < 2 * ((s : Int) * t.num - ((s : Int) * t.num).fdiv (t.den : Int) * t.den)
    · rw [if_pos h2, if_pos (c2.mpr h2)]
    · rw [if_neg h2, if_neg (fun hc => h2 (c2.mp hc))]

/-- The `.1f` rounding is the textbook round-half-even of `10 * t`. -/
theorem rheTenths_eq (t : Rat) : rheTenths t = roundHalfEven (t * 10) :=
  rheScaled_eq 10 t

/-- The microsecond quantisation is the textbook round-half-even of
`10^6 * t`. -/
theorem usOf_eq (t : Rat) : usOf t = roundHalfEven (t * 1000000) :=
  rheScaled_eq 1000000 t

/-- Early-return shape of `get_weather_impl`: absent credential. -/
theorem gw_absent (env : Env) (tr : OwmTransport) (today : CalDate) (city date : String)
    (h : pyStrip env.openweatherApiKey = "") :
    get_weather_impl env tr today city date
      = (PyResult.ok (unavailableMsg city date), []) := by
  unfold get_weather_impl
  rw [if_pos h]

/-- Early-return shape of `get_weather_impl`: unparsable date. -/
theorem gw_invalid (env : Env) (tr : OwmTransport) (today : CalDate) (city date : String)
    (hk : ¬ pyStrip env.openweatherApiKey = "")
    (hp : parse_yyyy_mm_dd date = none) :
    get_weather_impl env tr today city date = (PyResult.ok invalidDateMsg, []) := by
  unfold get_weather_impl
  rw [if_neg hk, hp]

/-- Main-path shape of `get_weather_impl`: credential present, date parsed. -/
theorem gw_present (env : Env) (tr : OwmTransport) (today : CalDate) (city date : String)
    (target : CalDate)
    (hk : ¬ pyStrip env.openweatherApiKey = "")
    (hp : parse_yyyy_mm_dd date = some target) :
    get_weather_impl env tr today city date =
      ((match (if in_forecast_window today target then
            weather_from_forecast tr city (pyStrip env.openweatherApiKey) target
          else weather_from_current tr city (pyStrip env.openweatherApiKey)).1 with
        | PyResult.raised => PyResult.raised
        | PyResult.ok t =>
            PyResult.ok (render_weather_result city target
              (if in_forecast_window today target then "forecast" else "current") t)),
       (if in_forecast_window today target then
          weather_from_forecast tr city (pyStrip env.openweatherApiKey) target
        else weather_from_current tr city (pyStrip env.openweatherApiKey)).2) := by
  unfold get_weather_impl
  rw [if_neg hk, hp]

/-- Claim C1: with the credential present and the date string parsing to
`d`, `get_weather_impl` issues its one request against the forecast endpoint
exactly when `today <= d <= today + 5 days` (both boundaries included), and
against the current-conditions endpoint exactly when `d` is outside that
window. -/
theorem forecast_window_selects_path (env : Env) (tr : OwmTransport)
    (today : CalDate) (city date : String) (d : CalDate)
    (hk : ¬ pyStrip env.openweatherApiKey = "")
    (hp : parse_yyyy_mm_dd date = some d) :
    ((get_weather_impl env tr today city date).2.map NetCall.endpoint = ["forecast"] ↔
       in_forecast_window today d = true) ∧
    ((get_weather_impl env tr today city date).2.map NetCall.endpoint = ["weather"] ↔
       in_forecast_window today d = false) := by
  rw [gw_present env tr today city date d hk hp]
  cases hw : in_forecast_window today d <;>
    simp [hw, weather_from_forecast, weather_from_current]

/-- Witness for C1: two days ahead of `today` is inside the window, and the
single call indeed targets the forecast endpoint. -/
theorem forecast_window_selects_path_witness :
    (¬ pyStrip "k" = "") ∧ parse_yyyy_mm_dd "2025-10-14" = some ⟨2025, 10, 14⟩ ∧
    (((get_weather_impl ⟨"k"⟩ offlineTr ⟨2025, 10, 12⟩ "Tokyo" "2025-10-14").2.map NetCall.endpoint
        = ["forecast"] ↔ in_forecast_window ⟨2025, 10, 12⟩ ⟨2025, 10, 14⟩ = true) ∧
     ((get_weather_impl ⟨"k"⟩ offlineTr ⟨2025, 10, 12⟩ "Tokyo" "2025-10-14").2.map NetCall.endpoint
        = ["weather"] ↔ in_forecast_window ⟨2025, 10, 12⟩ ⟨2025, 10, 14⟩ = false)) :=
  ⟨by decide, by decide,
   forecast_window_selects_path ⟨"k"⟩ offlineTr ⟨2025, 10, 12⟩ "Tokyo" "2025-10-14"
     ⟨2025, 10, 14⟩ (by decide) (by decide)⟩

/-- Counterexample to C7 as stated: with the credential present but a
malformed date, `get_weather_impl` returns before the network layer, so the
invocation performs zero outbound calls, not one. -/
theorem one_call_when_credential_counterexample :
    ¬ pyStrip (Env.mk "dummy-key").openweatherApiKey = "" ∧
    (get_weather_impl ⟨"dummy-key"⟩ offlineTr ⟨2025, 10, 12⟩ "Tokyo" "not-a-date").2 = [] :=
  ⟨by decide, rfl⟩

/-- Claim C7 (amended): with the credential absent, `get_weather_impl`
returns the fixed unavailable-credential message immediately with zero
outbound calls; with the credential present AND the date string parsing,
each invocation performs exactly one outbound call.  (As stated the claim
fails: a present credential with a malformed date makes zero calls.) -/
theorem credential_gate_network_calls (env : Env) (tr : OwmTransport)
    (today : CalDate) (city date : String) :
    (pyStrip env.openweatherApiKey = "" →
       get_weather_impl env tr today city date
         = (PyResult.ok (unavailableMsg city date), [])) ∧
    (¬ pyStrip env.openweatherApiKey = "" →
       ∀ d, parse_yyyy_mm_dd date = some d →
         (get_weather_impl env tr today city date).2.length = 1) := by
  refine ⟨fun h => gw_absent env tr today city date h, fun hk d hp => ?_⟩
  rw [gw_present env tr today city date d hk hp]
  cases hw : in_forecast_window today d <;>
    simp [hw, weather_from_forecast, weather_from_current]

/-- Witness for C7 (amended): both branches at concrete inputs — an unset
credential yields the fixed message and no calls; a present credential with
a well-formed date yields exactly one call. -/
theorem credential_gate_network_calls_witness :
    (pyStrip "" = "" ∧
      get_weather_impl ⟨""⟩ offlineTr ⟨2025, 10, 12⟩ "Tokyo" "2030-01-01"
        = (PyResult.ok (unavailableMsg "Tokyo" "2030-01-01"), [])) ∧
    (¬ pyStrip "k" = "" ∧ parse_yyyy_mm_dd "2025-10-14" = some ⟨2025, 10, 14⟩ ∧
      (get_weather_impl ⟨"k"⟩ offlineTr ⟨2025, 10, 12⟩ "Tokyo" "2025-10-14").2.length = 1) :=
  ⟨⟨rfl, (credential_gate_network_calls ⟨""⟩ offlineTr ⟨2025, 10, 12⟩ "Tokyo" "2030-01-01").1 rfl⟩,
   ⟨by decide, by decide,
    (credential_gate_network_calls ⟨"k"⟩ offlineTr ⟨2025, 10, 12⟩ "Tokyo" "2025-10-14").2
      (by decide) ⟨2025, 10, 14⟩ (by decide)⟩⟩

/-- Claim C8: with the credential present, every date string that does not
parse as an ISO calendar date makes `get_weather_impl` return the fixed
invalid-date message — an ordinary return, not a raise (the `try/except` in
`_parse_yyyy_mm_dd` converts the `strptime` failure to `None`). -/
theorem invalid_date_fixed_message (env : Env) (tr : OwmTransport)
    (today : CalDate) (city date : String)
    (hk : ¬ pyStrip env.openweatherApiKey = "")
    (hp : parse_yyyy_mm_dd date = none) :
    (get_weather_impl env tr today city date).1 = PyResult.ok invalidDateMsg := by
  rw [gw_invalid env tr today city date hk hp]

/-- Witness for C8 at `"not-a-date"`. -/
theorem invalid_date_fixed_message_witness :
    (¬ pyStrip "k" = "") ∧ parse_yyyy_mm_dd "not-a-date" = none ∧
    (get_weather_impl ⟨"k"⟩ offlineTr ⟨2025, 10, 12⟩ "Tokyo" "not-a-date").1
      = PyResult.ok invalidDateMsg :=
  ⟨by decide, by decide,
   invalid_date_fixed_message ⟨"k"⟩ offlineTr ⟨2025, 10, 12⟩ "Tokyo" "not-a-date"
     (by decide) (by decide)⟩

/-- Claim C10: the credential check precedes date validation — with the
credential absent the unavailable-credential message (which echoes city and
date) is returned for every date string, malformed ones included; and the
invalid-date message can only have been produced with the credential
present. -/
theorem credential_check_precedes_date_validation (env : Env) (tr : OwmTransport)
    (today : CalDate) (city date : String) :
    (pyStrip env.openweatherApiKey = "" →
       (get_weather_impl env tr today city date).1
         = PyResult.ok (unavailableMsg city date)) ∧
    ((get_weather_impl env tr today city date).1 = PyResult.ok invalidDateMsg →
       ¬ pyStrip env.openweatherApiKey = "") := by
  constructor
  · intro h; rw [gw_absent env tr today city date h]
  · intro h hk
    rw [gw_absent env tr today city date hk] at h
    have h2 : PyResult.ok (unavailableMsg city date) = PyResult.ok invalidDateMsg := h
    injection h2 with h3
    have hlen := congrArg String.length h3
    simp only [unavailableMsg, String.length_append] at hlen
    have hA : ("Weather lookup unavailable: missing OPENWEATHER_API_KEY environment variable.\nInput: city=" : String).length = 90 := by decide
    have hB : (invalidDateMsg : String).length = 43 := by decide
    rw [hA, hB] at hlen
    omega

/-- Witness for C10: unset credential and malformed date give the
unavailable-credential message. -/
theorem credential_check_precedes_date_validation_witness :
    pyStrip "" = "" ∧
    (get_weather_impl ⟨""⟩ offlineTr ⟨2025, 10, 12⟩ "Tokyo" "not-a-date").1
      = PyResult.ok (unavailableMsg "Tokyo" "not-a-date") :=
  ⟨rfl,
   (credential_check_precedes_date_validation ⟨""⟩ offlineTr ⟨2025, 10, 12⟩
      "Tokyo" "not-a-date").1 rfl⟩

/-- Counterexample to C4 as stated: `"TOKYO"` and `"tokyo"` agree after
trimming and lowercasing, yet the outputs differ — the `Route:` line echoes
the literal destination string. -/
theorem case_insensitive_identical_output_counterexample :
    pyLower (pyStrip "TOKYO") = pyLower (pyStrip "tokyo") ∧
    search_travel_options_impl "Delhi" "TOKYO" "2025-04-01" "2025-04-10"
      ≠ search_travel_options_impl "Delhi" "tokyo" "2025-04-01" "2025-04-10" :=
  ⟨by decide, by decide⟩

/-- Claim C4 (amended): `search_travel_options_impl` is a pure function of
its four string arguments; destination matching is case-insensitive in the
sense that destinations equal after trimming and lowercasing select the same
catalog entry (in particular, both supported or both unsupported), and the
two outputs differ at most in the literal echo of the destination string
(the output for `d1` renders `d2`'s selection); for every unsupported
destination the result is exactly the unsupported-destination message, which
states only two destinations are supported and echoes the literal inputs.
(As stated the claim fails: literally identical output is refuted by the
`Route:` echo.) -/
theorem catalog_case_insensitive_selection (origin depart ret d1 d2 dst : String)
    (h : pyLower (pyStrip d1) = pyLower (pyStrip d2))
    (hd : catalog_lookup dst = none) :
    catalog_lookup d1 = catalog_lookup d2 ∧
    search_travel_options_impl origin d1 depart ret
      = render_travel origin d1 depart ret (catalog_lookup d2) ∧
    search_travel_options_impl origin dst depart ret
      = unsupportedMsg origin dst depart ret := by
  have hsel : catalog_lookup d1 = catalog_lookup d2 := by
    unfold catalog_lookup
    rw [h]
  refine ⟨hsel, ?_, ?_⟩
  · unfold search_travel_options_impl
    rw [hsel]
  · unfold search_travel_options_impl
    rw [hd]
    rfl

/-- Witness for C4 (amended) at `"TOKYO"`/`"tokyo"` and the unsupported
`"Paris"`. -/
theorem catalog_case_insensitive_selection_witness :
    pyLower (pyStrip "TOKYO") = pyLower (pyStrip "tokyo") ∧
    catalog_lookup "Paris" = none ∧
    (catalog_lookup "TOKYO" = catalog_lookup "tokyo" ∧
     search_travel_options_impl "Delhi" "TOKYO" "2025-04-01" "2025-04-10"
       = render_travel "Delhi" "TOKYO" "2025-04-01" "2025-04-10" (catalog_lookup "tokyo") ∧
     search_travel_options_impl "Delhi" "Paris" "2025-04-01" "2025-04-10"
       = unsupportedMsg "Delhi" "Paris" "2025-04-01" "2025-04-10") :=
  ⟨rfl, rfl,
   catalog_case_insensitive_selection "Delhi" "2025-04-01" "2025-04-10"
     "TOKYO" "tokyo" "Paris" rfl rfl⟩

/-- The selection loop returns its accumulator unchanged (and does not
raise) when every entry is skipped. -/
theorem scanBestE_all_skip (tz : Int) (target : CalDate) :
    ∀ (l : List JValue), (∀ e ∈ l, entryView tz target e = PyResult.ok none) →
      ∀ acc, scanBestE tz target l acc = PyResult.ok acc := by
  intro l
  induction l with
  | nil => intro _ _; rfl
  | cons x xs ih =>
    intro h acc
    have hx : entryView tz target x = PyResult.ok none := h x (by simp)
    have hxs : ∀ e ∈ xs, entryView tz target e = PyResult.ok none :=
      fun e he => h e (by simp [he])
    simp only [scanBestE, hx]
    exact ih hxs acc

/-- Counterexample to C5 as stated: a non-empty entry list with no
date-matching entry whose first element is not a dict makes the forecast
path return the invalid-forecast-entry failure — it does not proceed
without erroring. -/
theorem fallback_without_error_counterexample :
    (∀ e ∈ [JValue.jint 7],
       entryView (tz_of noMatchData) ⟨2030, 1, 1⟩ e = PyResult.ok none) ∧
    forecast_triple noMatchData ⟨2030, 1, 1⟩
      = PyResult.ok
          (none, none, some "Unexpected OpenWeatherMap response: invalid forecast entry") :=
  ⟨by decide, by decide⟩

/-- Claim C5 (amended): for every forecast payload with a valid feed offset
and a non-empty entry list in which the loop admits no entry (each entry is
skipped — not a dict, no numeric `dt`, or a local date differing from the
target — and none raises), the forecast path falls back to the first entry
of the list: the no-match condition itself is not an error, and the result
is exactly the ordinary extraction applied to that first entry — which still
fails through the usual shape checks when the first entry is not a mapping
(invalid-entry failure) or lacks a numeric temperature.  (As stated,
"proceeds without erroring" is refuted by a non-dict first entry.) -/
theorem forecast_no_match_falls_back (data : Jobj) (target : CalDate)
    (e0 : JValue) (es : List JValue)
    (htz : -86400 < tz_of data ∧ tz_of data < 86400)
    (hent : entries_of data = JValue.jarr (e0 :: es))
    (hno : ∀ e ∈ e0 :: es, entryView (tz_of data) target e = PyResult.ok none) :
    forecast_triple data target = PyResult.ok (fallback_extract e0) := by
  unfold forecast_triple
  dsimp only
  rw [if_pos htz, hent]
  dsimp only
  rw [scanBestE_all_skip (tz_of data) target (e0 :: es) hno none]

/-- Witness for C5 (amended): a single non-matching dict entry is used as
the fallback, and extraction on it succeeds (20°C, default description). -/
theorem forecast_no_match_falls_back_witness :
    (-86400 < tz_of noMatchDictData ∧ tz_of noMatchDictData < 86400) ∧
    entries_of noMatchDictData = JValue.jarr [fallbackEntry] ∧
    (∀ e ∈ [fallbackEntry],
       entryView (tz_of noMatchDictData) ⟨2030, 1, 1⟩ e = PyResult.ok none) ∧
    forecast_triple noMatchDictData ⟨2030, 1, 1⟩ = PyResult.ok (fallback_extract fallbackEntry) ∧
    fallback_extract fallbackEntry = (some 20, some "Unknown conditions", none) :=
  ⟨by decide, rfl, by decide,
   forecast_no_match_falls_back noMatchDictData ⟨2030, 1, 1⟩ fallbackEntry []
     (by decide) rfl (by decide),
   by decide⟩

/-- The defaulted description is never the empty string. -/
theorem resolve_desc_ne_empty (o : Option JValue) : ¬ resolve_desc o = "" := by
  rcases o with _ | v
  · simp [resolve_desc]
  · cases v <;> simp [resolve_desc]
    case jstr s =>
      by_cases h : pyStrip s = ""
      · simp [h]
      · simp [h]
        intro he
        exact h (by rw [he]; rfl)

/-- Any outcome of the shared extraction satisfies the pairing invariant. -/
theorem extract_weather_ok (msg : String) (best : JValue) :
    TripleOk (extract_weather msg best) := by
  unfold extract_weather
  by_cases h : pyIsNumber (safe_get best ["main", "temp"]) = true
  · rw [if_pos h]
    exact Or.inl ⟨_, _, rfl, resolve_desc_ne_empty _⟩
  · rw [if_neg h]
    exact Or.inr ⟨msg, rfl⟩

/-- Every triple the forecast body actually returns (i.e. every non-raising
outcome) satisfies the pairing invariant. -/
theorem forecast_triple_ok (data : Jobj) (target : CalDate) :
    ∀ t, forecast_triple data target = PyResult.ok t → TripleOk t := by
  intro t h
  unfold forecast_triple at h
  dsimp only at h
  by_cases htz : -86400 < tz_of data ∧ tz_of data < 86400
  · rw [if_pos htz] at h
    split at h
    · split at h
      · exact PyResult.noConfusion h
      · injection h with h2
        subst h2
        exact extract_weather_ok _ _
      · injection h with h2
        subst h2
        unfold fallback_extract
        split
        · exact extract_weather_ok _ _
        · exact Or.inr ⟨_, rfl⟩
    · injection h with h2
      subst h2
      exact Or.inr ⟨_, rfl⟩
  · rw [if_neg htz] at h
    exact PyResult.noConfusion h

/-- A candidate that is not a non-blank string resolves to the default. -/
theorem resolve_desc_default (o : Option JValue)
    (h : ∀ s, o = some (JValue.jstr s) → pyStrip s = "") :
    resolve_desc o = "Unknown conditions" := by
  rcases o with _ | v
  · rfl
  · cases v <;> try rfl
    case jstr s => exact if_pos (h s rfl)

/-- Claim C6: on either path, every returned weather triple (a raising
forecast invocation returns none) never pairs a present temperature with an
absent/empty condition (or vice versa): every outcome is either a numeric
temperature plus a non-empty condition string with no error, or a failure
message with neither field.  Moreover a non-numeric or missing temperature
is a hard failure (the fixed message of that path), while a
missing/non-string/blank description merely defaults to
`"Unknown conditions"` alongside the temperature. -/
theorem weather_fields_resolve_together (tr : OwmTransport) (city apiKey : String)
    (target : CalDate) :
    (∀ t, (weather_from_current tr city apiKey).1 = PyResult.ok t → TripleOk t) ∧
    (∀ t, (weather_from_forecast tr city apiKey target).1 = PyResult.ok t → TripleOk t) ∧
    (∀ msg best, ¬ pyIsNumber (safe_get best ["main", "temp"]) = true →
       extract_weather msg best = (none, none, some msg)) ∧
    (∀ msg best, pyIsNumber (safe_get best ["main", "temp"]) = true →
       (∀ s, desc_of best = some (JValue.jstr s) → pyStrip s = "") →
       extract_weather msg best
         = (some (pyToRat (safe_get best ["main", "temp"])), some "Unknown conditions", none)) := by
  refine ⟨?_, ?_, ?_, ?_⟩
  · intro t h
    unfold weather_from_current at h
    dsimp only at h
    injection h with h2
    subst h2
    cases htr : tr "weather" (owmParams city apiKey) with
    | error e => exact Or.inr ⟨e, rfl⟩
    | ok data => exact extract_weather_ok _ _
  · intro t h
    unfold weather_from_forecast at h
    dsimp only at h
    cases htr : tr "forecast" (owmParams city apiKey) with
    | error e =>
        rw [htr] at h
        injection h with h2
        subst h2
        exact Or.inr ⟨e, rfl⟩
    | ok data =>
        rw [htr] at h
        exact forecast_triple_ok data target t h
  · intro msg best h
    unfold extract_weather
    rw [if_neg h]
  · intro msg best h hd
    unfold extract_weather
    rw [if_pos h, resolve_desc_default (desc_of best) hd]

/-- Witness for C6: the invariant at a failing transport, the hard failure
on a temperature-free dict, and the default description on a dict with a
temperature but no weather list. -/
theorem weather_fields_resolve_together_witness :
    ((weather_from_current offlineTr "Tokyo" "k").1
        = PyResult.ok (none, none, some "Request failed: offline") ∧
     TripleOk ((none : Option Rat), (none : Option String), some "Request failed: offline")) ∧
    (¬ pyIsNumber (safe_get (JValue.jobj []) ["main", "temp"]) = true ∧
      extract_weather "m" (JValue.jobj []) = (none, none, some "m")) ∧
    (pyIsNumber (safe_get fallbackEntry ["main", "temp"]) = true ∧
      extract_weather "m" fallbackEntry = (some 20, some "Unknown conditions", none)) :=
  ⟨⟨rfl,
    (weather_fields_resolve_together offlineTr "Tokyo" "k" ⟨2030, 1, 1⟩).1 _ rfl⟩,
   ⟨by decide,
    (weather_fields_resolve_together offlineTr "Tokyo" "k" ⟨2030, 1, 1⟩).2.2.1 "m"
      (JValue.jobj []) (by decide)⟩,
   ⟨by decide,
    (weather_fields_resolve_together offlineTr "Tokyo" "k" ⟨2030, 1, 1⟩).2.2.2 "m"
      fallbackEntry (by decide) (fun _ hs => Option.noConfusion hs)⟩⟩

/-- `toString` of a single decimal digit is that one digit character. -/
theorem toString_digit (m : Nat) (h : m < 10) :
    toString m = String.mk [Char.ofNat (48 + m)] ∧ (Char.ofNat (48 + m)).isDigit = true := by
  interval_cases m <;> exact ⟨by decide, by decide⟩

/-- Claim C9: whenever the selected path resolves a temperature and a
condition string, `get_weather_impl` returns exactly
`"Weather for {city} on {date} ({source}): {temp}°C, {conditions}."`, with
`{source}` chosen as `"forecast"`/`"current"` by the window decision,
`{date}` the parsed target in ISO form, and the temperature rendered by the
embedded `f"{x:.1f}"` with exactly one digit after the decimal point. -/
theorem success_output_format (env : Env) (tr : OwmTransport) (today : CalDate)
    (city date : String) (d : CalDate) (t : Rat) (c : String)
    (hk : ¬ pyStrip env.openweatherApiKey = "")
    (hp : parse_yyyy_mm_dd date = some d)
    (hs : (if in_forecast_window today d then
             weather_from_forecast tr city (pyStrip env.openweatherApiKey) d
           else weather_from_current tr city (pyStrip env.openweatherApiKey)).1
          = PyResult.ok (some t, some c, none)) :
    (get_weather_impl env tr today city date).1 =
      PyResult.ok ("Weather for " ++ city ++ " on " ++ isoformat d ++ " ("
        ++ (if in_forecast_window today d then "forecast" else "current")
        ++ "): " ++ fmt_temp_c t ++ ", " ++ c ++ ".") ∧
    ∃ w dgt, fmt_temp_c t = w ++ "." ++ String.mk [dgt] ++ "°C" ∧ dgt.isDigit = true := by
  constructor
  · rw [gw_present env tr today city date d hk hp]
    dsimp only
    rw [hs]
    rfl
  · obtain ⟨h1, h2⟩ := toString_digit ((rheTenths t).natAbs % 10)
      (Nat.mod_lt _ (by norm_num))
    refine ⟨(if t < 0 then "-" else "")
        ++ toString ((rheTenths t).natAbs / 10), _, ?_, h2⟩
    simp only [fmt_temp_c]
    rw [h1]

/-- Witness for C9: a concrete forecast payload resolves 12.0°C / "noon" on
1970-01-02, and the rendered line matches the template. -/
theorem success_output_format_witness :
    (¬ pyStrip "key" = "") ∧ parse_yyyy_mm_dd "1970-01-02" = some ⟨1970, 1, 2⟩ ∧
    (if in_forecast_window ⟨1970, 1, 1⟩ ⟨1970, 1, 2⟩ then
       weather_from_forecast goodTr "Tokyo" (pyStrip "key") ⟨1970, 1, 2⟩
     else weather_from_current goodTr "Tokyo" (pyStrip "key")).1
      = PyResult.ok (some 12, some "noon", none) ∧
    ((get_weather_impl ⟨"key"⟩ goodTr ⟨1970, 1, 1⟩ "Tokyo" "1970-01-02").1 =
      PyResult.ok ("Weather for " ++ "Tokyo" ++ " on " ++ isoformat ⟨1970, 1, 2⟩ ++ " ("
        ++ (if in_forecast_window ⟨1970, 1, 1⟩ ⟨1970, 1, 2⟩ then "forecast" else "current")
        ++ "): " ++ fmt_temp_c 12 ++ ", " ++ "noon" ++ ".") ∧
     ∃ w dgt, fmt_temp_c 12 = w ++ "." ++ String.mk [dgt] ++ "°C" ∧ dgt.isDigit = true) ∧
    (get_weather_impl ⟨"key"⟩ goodTr ⟨1970, 1, 1⟩ "Tokyo" "1970-01-02").1
      = PyResult.ok "Weather for Tokyo on 1970-01-02 (forecast): 12.0°C, noon." :=
  ⟨by decide, by decide, by decide,
   success_output_format ⟨"key"⟩ goodTr ⟨1970, 1, 1⟩ "Tokyo" "1970-01-02" ⟨1970, 1, 2⟩
     12 "noon" (by decide) (by decide) (by decide),
   by decide⟩

/-- Folding `updBest` from an admitted candidate yields the first
candidate attaining the minimal delta among the accumulator and the list:
the result is minimal, and every candidate strictly before it (the
accumulator included, when overtaken) has a strictly larger delta. -/
theorem foldl_updBest_some {α : Type} (ps : List (α × Nat)) : ∀ (q : α × Nat),
    ∃ r, List.foldl updBest (some q) ps = some r ∧
      r.2 ≤ q.2 ∧ (∀ x ∈ ps, r.2 ≤ x.2) ∧
      (r = q ∨ ∃ l₁ l₂, ps = l₁ ++ r :: l₂ ∧ r.2 < q.2 ∧ ∀ x ∈ l₁, r.2 < x.2) := by
  induction ps with
  | nil => exact fun q => ⟨q, rfl, le_refl _, by simp, Or.inl rfl⟩
  | cons p ps ih =>
    intro q
    by_cases hpq : p.2 < q.2
    · obtain ⟨r, hfold, hle, hall, hcase⟩ := ih p
      refine ⟨r, ?_, le_of_lt (lt_of_le_of_lt hle hpq), ?_, ?_⟩
      · simpa [updBest, hpq] using hfold
      · intro x hx
        rcases List.mem_cons.mp hx with hx | hx
        · exact hx ▸ hle
        · exact hall x hx
      · rcases hcase with hrq | ⟨l₁, l₂, hsplit, hrlt, hpre⟩
        · exact Or.inr ⟨[], ps, by simp [hrq], hrq ▸ hpq, by simp⟩
        · refine Or.inr ⟨p :: l₁, l₂, by simp [hsplit], lt_trans hrlt hpq, ?_⟩
          intro x hx
          rcases List.mem_cons.mp hx with hx | hx
          · exact hx ▸ hrlt
          · exact hpre x hx
    · obtain ⟨r, hfold, hle, hall, hcase⟩ := ih q
      have hqp : q.2 ≤ p.2 := le_of_not_lt hpq
      refine ⟨r, ?_, hle, ?_, ?_⟩
      · simpa [updBest, hpq] using hfold
      · intro x hx
        rcases List.mem_cons.mp hx with hx | hx
        · exact hx ▸ le_trans hle hqp
        · exact hall x hx
      · rcases hcase with hrq | ⟨l₁, l₂, hsplit, hrlt, hpre⟩
        · exact Or.inl hrq
        · refine Or.inr ⟨p :: l₁, l₂, by simp [hsplit], hrlt, ?_⟩
          intro x hx
          rcases List.mem_cons.mp hx with hx | hx
          · exact hx ▸ lt_of_lt_of_le hrlt hqp
          · exact hpre x hx

/-- Folding `updBest` from the empty accumulator over a non-empty candidate
list selects the first candidate attaining the minimal delta. -/
theorem foldl_updBest_none {α : Type} (p : α × Nat) (ps : List (α × Nat)) :
    ∃ r, List.foldl updBest none (p :: ps) = some r ∧
      (∀ x ∈ p :: ps, r.2 ≤ x.2) ∧
      ∃ l₁ l₂, p :: ps = l₁ ++ r :: l₂ ∧ ∀ x ∈ l₁, r.2 < x.2 := by
  obtain ⟨r, hfold, hle, hall, hcase⟩ := foldl_updBest_some ps p
  refine ⟨r, hfold, ?_, ?_⟩
  · intro x hx
    rcases List.mem_cons.mp hx with hx | hx
    · exact hx ▸ hle
    · exact hall x hx
  · rcases hcase with hrq | ⟨l₁, l₂, hsplit, hrlt, hpre⟩
    · exact ⟨[], ps, by simp [hrq], by simp⟩
    · refine ⟨p :: l₁, l₂, by simp [hsplit], ?_⟩
      intro x hx
      rcases List.mem_cons.mp hx with hx | hx
      · exact hx ▸ hrlt
      · exact hpre x hx

/-- A skipped entry contributes no candidate. -/
theorem candidates_cons_none (tz : Int) (target : CalDate) (e : JValue)
    (l : List JValue) (h : entryView tz target e = PyResult.ok none) :
    candidates tz target (e :: l) = candidates tz target l := by
  simp [candidates, List.filterMap_cons, h]

/-- An admitted entry contributes its candidate, in order. -/
theorem candidates_cons_some (tz : Int) (target : CalDate) (e : JValue)
    (l : List JValue) (dl : Nat) (h : entryView tz target e = PyResult.ok (some dl)) :
    candidates tz target (e :: l) = (e, dl) :: candidates tz target l := by
  simp [candidates, List.filterMap_cons, h]

/-- When no entry raises, the selection loop is exactly the `updBest` fold
over the candidate list. -/
theorem scanBestE_eq_foldl (tz : Int) (target : CalDate) :
    ∀ (l : List JValue), (∀ e ∈ l, ¬ entryView tz target e = PyResult.raised) →
      ∀ acc, scanBestE tz target l acc
        = PyResult.ok (List.foldl updBest acc (candidates tz target l)) := by
  intro l
  induction l with
  | nil => intro _ acc; rfl
  | cons e l ih =>
    intro h acc
    have he := h e (by simp)
    have hl : ∀ x ∈ l, ¬ entryView tz target x = PyResult.raised :=
      fun x hx => h x (by simp [hx])
    cases hd : entryView tz target e with
    | raised => exact absurd hd he
    | ok o =>
      cases o with
      | none =>
        simp only [scanBestE, hd]
        rw [candidates_cons_none tz target e l hd]
        exact ih hl acc
      | some dl =>
        rw [candidates_cons_some tz target e l dl hd, List.foldl_cons]
        cases acc with
        | none =>
          simp only [scanBestE, hd]
          rw [show updBest none (e, dl) = some (e, dl) from rfl]
          exact ih hl _
        | some b =>
          by_cases hlt : dl < b.2
          · simp only [scanBestE, hd]
            rw [if_pos hlt, show updBest (some b) (e, dl) = some (e, dl) from by
              simp [updBest, hlt]]
            exact ih hl _
          · simp only [scanBestE, hd]
            rw [if_neg hlt, show updBest (some b) (e, dl) = some b from by
              simp [updBest, hlt]]
            exact ih hl _

/-- Counterexample to C2 as stated: a forecast list whose first entry
matches the target date at exactly local noon, followed by an entry whose
timestamp is far outside the `datetime` range.  The claim's hypothesis holds
(an entry matches the target date), but the loop does not select any entry:
`fromtimestamp` raises `OverflowError`/`ValueError` on the second entry and
the exception escapes, so no selection or extraction happens at all. -/
theorem noon_minimizer_counterexample :
    entries_of crashForecastData = JValue.jarr [entry1200, crashEntry] ∧
    entryView (tz_of crashForecastData) ⟨1970, 1, 2⟩ entry1200 = PyResult.ok (some 0) ∧
    forecast_triple crashForecastData ⟨1970, 1, 2⟩ = PyResult.raised :=
  ⟨rfl, by decide, by decide⟩

/-- Claim C2 (amended): for a forecast payload with a valid feed offset
whose entry list makes the loop raise on no entry and admit at least one
(an entry is admitted exactly when its quantised local calendar date equals
the target), the loop selects an admitted entry whose noon-distance (in
whole microseconds, after `fromtimestamp`'s round-half-even quantisation)
is minimal among all admitted entries, and it is the first-encountered
minimizer (every earlier admitted entry has a strictly larger distance —
the strict `<` comparison); the forecast body then extracts exactly from
that entry.  (As stated the claim fails: an out-of-range timestamp later in
the list makes the call raise instead of selecting the matching entry.)
The 09:00/12:00/15:00 instance is checked in the witness. -/
theorem forecast_selects_first_noon_minimizer (data : Jobj) (target : CalDate)
    (e0 : JValue) (es : List JValue)
    (htz : -86400 < tz_of data ∧ tz_of data < 86400)
    (hent : entries_of data = JValue.jarr (e0 :: es))
    (hnr : ∀ e ∈ e0 :: es, ¬ entryView (tz_of data) target e = PyResult.raised)
    (hne : 0 < (candidates (tz_of data) target (e0 :: es)).length) :
    ∃ p : JValue × Nat,
      scanBestE (tz_of data) target (e0 :: es) none = PyResult.ok (some p) ∧
      p.1 ∈ e0 :: es ∧
      entryView (tz_of data) target p.1 = PyResult.ok (some p.2) ∧
      (∀ x ∈ candidates (tz_of data) target (e0 :: es), p.2 ≤ x.2) ∧
      (∃ l₁ l₂, candidates (tz_of data) target (e0 :: es) = l₁ ++ p :: l₂ ∧
         ∀ x ∈ l₁, p.2 < x.2) ∧
      forecast_triple data target
        = PyResult.ok (extract_weather
            "Unexpected OpenWeatherMap response: missing forecast temperature" p.1) := by
  obtain ⟨c0, cs, hcand⟩ : ∃ c0 cs, candidates (tz_of data) target (e0 :: es) = c0 :: cs := by
    cases hc : candidates (tz_of data) target (e0 :: es) with
    | nil => rw [hc] at hne; simp at hne
    | cons c0 cs => exact ⟨c0, cs, rfl⟩
  obtain ⟨r, hfold, hall, l₁, l₂, hsplit, hpre⟩ := foldl_updBest_none c0 cs
  have hscan : scanBestE (tz_of data) target (e0 :: es) none = PyResult.ok (some r) := by
    rw [scanBestE_eq_foldl (tz_of data) target (e0 :: es) hnr none, hcand, hfold]
  have hrmem : r ∈ candidates (tz_of data) target (e0 :: es) := by
    rw [hcand, hsplit]
    simp
  rw [candidates] at hrmem
  obtain ⟨a, hamem, hfa⟩ := List.mem_filterMap.mp hrmem
  have hfacts : r.1 ∈ e0 :: es ∧ entryView (tz_of data) target r.1 = PyResult.ok (some r.2) := by
    cases hfd : entryView (tz_of data) target a with
    | raised => rw [hfd] at hfa; simp at hfa
    | ok o =>
      cases o with
      | none => rw [hfd] at hfa; simp at hfa
      | some dl =>
        rw [hfd] at hfa
        have hfa2 : (a, dl) = r := by simpa using hfa
        rw [← hfa2]
        exact ⟨hamem, by rw [hfd]⟩
  refine ⟨r, hscan, hfacts.1, hfacts.2, ?_, ⟨l₁, l₂, by rw [hcand, hsplit], hpre⟩, ?_⟩
  · intro x hx
    rw [hcand] at hx
    exact hall x hx
  · unfold forecast_triple
    dsimp only
    rw [if_pos htz, hent]
    dsimp only
    rw [hscan]

/-- Witness for C2 (amended) on the 09:00/12:00/15:00 payload: the
hypotheses hold, the theorem applies, and the loop concretely selects the
12:00 entry (delta 0). -/
theorem forecast_selects_first_noon_minimizer_witness :
    (-86400 < tz_of goodForecastData ∧ tz_of goodForecastData < 86400) ∧
    entries_of goodForecastData = JValue.jarr (entry0900 :: [entry1200, entry1500]) ∧
    (∀ e ∈ entry0900 :: [entry1200, entry1500],
       ¬ entryView (tz_of goodForecastData) ⟨1970, 1, 2⟩ e = PyResult.raised) ∧
    0 < (candidates (tz_of goodForecastData) ⟨1970, 1, 2⟩
          (entry0900 :: [entry1200, entry1500])).length ∧
    (∃ p : JValue × Nat,
      scanBestE (tz_of goodForecastData) ⟨1970, 1, 2⟩
          (entry0900 :: [entry1200, entry1500]) none = PyResult.ok (some p) ∧
      p.1 ∈ entry0900 :: [entry1200, entry1500] ∧
      entryView (tz_of goodForecastData) ⟨1970, 1, 2⟩ p.1 = PyResult.ok (some p.2) ∧
      (∀ x ∈ candidates (tz_of goodForecastData) ⟨1970, 1, 2⟩
          (entry0900 :: [entry1200, entry1500]), p.2 ≤ x.2) ∧
      (∃ l₁ l₂, candidates (tz_of goodForecastData) ⟨1970, 1, 2⟩
          (entry0900 :: [entry1200, entry1500]) = l₁ ++ p :: l₂ ∧
         ∀ x ∈ l₁, p.2 < x.2) ∧
      forecast_triple goodForecastData ⟨1970, 1, 2⟩
        = PyResult.ok (extract_weather
            "Unexpected OpenWeatherMap response: missing forecast temperature" p.1)) ∧
    scanBestE (tz_of goodForecastData) ⟨1970, 1, 2⟩
        [entry0900, entry1200, entry1500] none = PyResult.ok (some (entry1200, 0)) :=
  ⟨by decide, rfl, by decide, by decide,
   forecast_selects_first_noon_minimizer goodForecastData ⟨1970, 1, 2⟩ entry0900
     [entry1200, entry1500] (by decide) rfl (by decide) (by decide),
   by rfl⟩
